import Mathlib

/-!
Verification of the housing-comparison analytics core.

Shallow embedding of the scoring calculators (`src/utils/Calculators.ts`),
the analytics engine (`src/services/AnalyticsEngine.ts`), the travel-time
cache (`TravelTimeCache`) and the travel-time service
(`src/services/TravelTimeService.ts`).

Conventions of the embedding:
* JavaScript numbers are modelled as exact rationals (`ℚ`); the geo math
  of `TravelTimeService` (trigonometry) is modelled over `ℝ`.
* JavaScript `Map`s and plain string-keyed objects are modelled as
  insertion-ordered association lists: assignment to an existing key
  updates the entry in place, assignment to a fresh key appends.
* A plugin `calculate` that throws is modelled by returning `none`.
* Wall-clock readings (`Date.now()`, `performance.now()`) are explicit
  parameters; the `calculationTime` metadata field (pure wall-clock
  timing) is omitted from the model.
* Number-to-string formatting (`toFixed(0)`) is modelled with integer
  rounding and the exact-rational printer standing in for float printing.
-/

/-- Insertion-ordered map lookup (`Map.get` / `obj[k]`). -/
def mlookup {κ α : Type} [DecidableEq κ] : List (κ × α) → κ → Option α
  | [], _ => none
  | (k', v) :: t, k => if k' = k then some v else mlookup t k

/-- Insertion-ordered map update (`Map.set` / `obj[k] = v`): an existing
key keeps its position, a fresh key is appended at the end. -/
def mset {κ α : Type} [DecidableEq κ] : List (κ × α) → κ → α → List (κ × α)
  | [], k, v => [(k, v)]
  | (k', v') :: t, k, v => if k' = k then (k, v) :: t else (k', v') :: mset t k v

/-- Key removal (`Map.delete k`). -/
def merase {κ α : Type} [DecidableEq κ] (m : List (κ × α)) (k : κ) : List (κ × α) :=
  m.filter (fun e => e.1 ≠ k)

/-- Keys in insertion order (`Object.keys` / `Map.keys`). -/
def mkeys {κ α : Type} (m : List (κ × α)) : List κ := m.map Prod.fst

/-- Values in insertion order (`Map.values`). -/
def mvalues {κ α : Type} (m : List (κ × α)) : List α := m.map Prod.snd

/-- `TravelTime` (`ComparisonTypes.ts`): one (distance, duration) pair.
The type declaration there annotates `duration` as seconds while the
producer `TravelTimeService` stores minutes; the model keeps the raw
number and the unit question is settled by the theorems. -/
structure TravelTime where
  distance : ℚ
  duration : ℚ
  deriving DecidableEq, Repr, Inhabited

/-- `TravelTimes` (`ComparisonTypes.ts`): per-mode travel data. -/
structure TravelTimes where
  walking : TravelTime
  driving : TravelTime
  transit : TravelTime
  deriving DecidableEq, Repr, Inhabited

/-- `AmenityRating` (`ComparisonTypes.ts`). -/
structure AmenityRating where
  has : Bool
  rating : Option ℚ
  deriving DecidableEq, Repr, Inhabited

/-- `LaundryType` string union `'in-unit' | 'building' | 'none'`. -/
inductive Laundry where
  | inUnit
  | building
  | noLaundry
  deriving DecidableEq, Repr, Inhabited

/-- Rendering of the laundry union value used by explanation strings. -/
def Laundry.str : Laundry → String
  | .inUnit => "in-unit"
  | .building => "building"
  | .noLaundry => "none"

/-- `Amenities` (`ComparisonTypes.ts`). -/
structure Amenities where
  gym : AmenityRating
  pool : AmenityRating
  outdoorSpace : AmenityRating
  parking : Bool
  laundry : Laundry
  pets : Bool
  deriving DecidableEq, Repr, Inhabited

/-- `EnhancedLocationItem` (`ComparisonTypes.ts`), restricted to the fields
read by the analytics core. -/
structure Location where
  id : String
  position : ℚ × ℚ
  rent : ℚ
  squareFootage : ℚ
  bedrooms : ℚ
  bathrooms : ℚ
  amenities : Amenities
  travelTimes : Option TravelTimes
  deriving DecidableEq, Repr, Inhabited

/-- Weight block of `ScoreConfig` / `AnalyticsConfig`. -/
structure Weights where
  commute : ℚ
  cost : ℚ
  amenities : ℚ
  size : ℚ
  deriving DecidableEq, Repr, Inhabited

/-- Threshold block of `ScoreConfig` / `AnalyticsConfig`. -/
structure Thresholds where
  maxCommuteTime : ℚ
  maxRent : ℚ
  minSquareFootage : ℚ
  deriving DecidableEq, Repr, Inhabited

/-- `ScoreConfig` (`Calculators.ts`) and the weight/threshold part of
`AnalyticsConfig` (`AnalyticsEngine.ts`); the `plugins` settings bag of
`AnalyticsConfig` is never read by the modelled code and is omitted. -/
structure ScoreConfig where
  weights : Weights
  thresholds : Thresholds
  deriving DecidableEq, Repr, Inhabited

/-- `DEFAULT_SCORE_CONFIG` (`Calculators.ts`), identical to the engine
constructor defaults in `AnalyticsEngine.ts`. -/
def DEFAULT_SCORE_CONFIG : ScoreConfig :=
  { weights := { commute := 4/10, cost := 3/10, amenities := 2/10, size := 1/10 }
    thresholds := { maxCommuteTime := 60, maxRent := 500000, minSquareFootage := 500 } }

/-- One element of the `factors` array of a `ScoreBreakdown`. -/
structure Factor where
  factor : String
  value : ℚ
  weight : ℚ
  contribution : ℚ
  deriving DecidableEq, Repr, Inhabited

/-- `ScoreBreakdown` (`Calculators.ts`). -/
structure ScoreBreakdown where
  score : ℚ
  explanation : String
  factors : List Factor
  deriving DecidableEq, Repr, Inhabited

/-- `Math.min` on two numbers, written with an explicit comparison so that
concrete runs reduce in the kernel. -/
def qmin (a b : ℚ) : ℚ := if a ≤ b then a else b

/-- `Math.max` on two numbers. -/
def qmax (a b : ℚ) : ℚ := if b ≤ a then a else b

/-- `value.toFixed(0)`: round to the nearest integer (ties upward, as the
ECMAScript `toFixed` tie-break picks the larger candidate) and print. -/
def ratToFixed0 (q : ℚ) : String := toString (round q)

/- ------------------------------------------------------------------ -/
/- CommuteScore (`Calculators.ts` lines 74-162)                        -/
/- ------------------------------------------------------------------ -/

/-- `CommuteScore.generateCommuteExplanation`. -/
def generateCommuteExplanation (bestTime : ℚ) (goodOptions : ℕ) (score : ℚ) : String :=
  let timeRating := if bestTime ≤ 15 then "excellent" else
                    if bestTime ≤ 30 then "good" else
                    if bestTime ≤ 45 then "fair" else "poor"
  let scoreRating := if score ≥ 80 then "excellent" else
                     if score ≥ 60 then "good" else
                     if score ≥ 40 then "fair" else "poor"
  let base := "Best commute time is " ++ ratToFixed0 bestTime ++ " minutes (" ++ timeRating
      ++ ", score: " ++ ratToFixed0 score ++ "/100 - " ++ scoreRating ++ ")"
  if goodOptions ≥ 2 then
    base ++ ". " ++ toString goodOptions ++ " transportation options under 30 minutes"
  else base

/-- `CommuteScore.calculate` (`Calculators.ts`). Note the source divides
each stored duration by 60 (its comment reads `Convert to minutes`)
before applying the 15/30/45/60-minute step function. The in-place
update `factors[0].contribution = score - bonusContribution` is realised
by constructing the first factor with its final contribution. -/
def commuteCalculate (location : Location) : ScoreBreakdown :=
  match location.travelTimes with
  | none =>
      { score := 0, explanation := "No travel time data available", factors := [] }
  | some tts =>
      let walkingTime := tts.walking.duration / 60
      let drivingTime := tts.driving.duration / 60
      let transitTime := tts.transit.duration / 60
      let bestCommuteTime := qmin walkingTime (qmin drivingTime transitTime)
      let score0 : ℚ :=
        if bestCommuteTime ≤ 15 then 100
        else if bestCommuteTime ≤ 30 then 85
        else if bestCommuteTime ≤ 45 then 70
        else if bestCommuteTime ≤ DEFAULT_SCORE_CONFIG.thresholds.maxCommuteTime then 50
        else 25
      let goodOptions := ([walkingTime, drivingTime, transitTime].filter
        (fun time => time ≤ 30)).length
      let bonusContribution : ℚ := if goodOptions ≥ 2 then 10 else 0
      let score := qmin 100 (score0 + bonusContribution)
      { score := score
        explanation := generateCommuteExplanation bestCommuteTime goodOptions score
        factors :=
          [ { factor := "Best Commute Time", value := bestCommuteTime, weight := 7/10,
              contribution := score - bonusContribution }
          , { factor := "Multiple Commute Options", value := (goodOptions : ℚ), weight := 3/10,
              contribution := bonusContribution } ] }

/- ------------------------------------------------------------------ -/
/- CostScore (`Calculators.ts` lines 169-264)                          -/
/- ------------------------------------------------------------------ -/

/-- `Math.min(...xs)` over a list known to be nonempty at the call site
(the source spreads a nonempty array). -/
def listMin : List ℚ → ℚ
  | [] => 0
  | x :: xs => xs.foldl qmin x

/-- `Math.max(...xs)` over a list known to be nonempty at the call site. -/
def listMax : List ℚ → ℚ
  | [] => 0
  | x :: xs => xs.foldl qmax x

/-- The positive-rent sample the cost score normalises against
(`allLocations.map(loc => loc.rent).filter(rent => rent > 0)`). -/
def costRents (allLocations : List Location) : List ℚ :=
  (allLocations.map Location.rent).filter (fun rent => rent > 0)

/-- `minRent` local of `CostScore.calculate`. -/
def costMinRent (allLocations : List Location) : ℚ :=
  listMin (costRents allLocations)

/-- `maxRent` local of `CostScore.calculate`: the sample maximum clamped
to `DEFAULT_SCORE_CONFIG.thresholds.maxRent`. -/
def costMaxRent (allLocations : List Location) : ℚ :=
  qmin (listMax (costRents allLocations)) DEFAULT_SCORE_CONFIG.thresholds.maxRent

/-- `baseScore` local of `CostScore.calculate`. -/
def costBaseScore (location : Location) (allLocations : List Location) : ℚ :=
  let minRent := costMinRent allLocations
  let rentRange := costMaxRent allLocations - minRent
  if rentRange > 0 then
    100 - ((location.rent - minRent) / rentRange) * 100
  else 100

/-- `bonusContribution` local of `CostScore.calculate`: +10 near-cheapest
bonus, then the expensive penalty folded in with
`Math.max(-15, bonus - 15)`. -/
def costBonusContribution (location : Location) (allLocations : List Location) : ℚ :=
  let b0 : ℚ := if location.rent ≤ costMinRent allLocations * (11/10) then 10 else 0
  if location.rent ≥ DEFAULT_SCORE_CONFIG.thresholds.maxRent * (8/10) then
    qmax (-15) (b0 - 15)
  else b0

/-- `CostScore.generateCostExplanation`. -/
def generateCostExplanation (rent minRent maxRent score : ℚ) : String :=
  let rentFormatted := ratToFixed0 (rent / 100)
  let rentRange := maxRent - minRent
  let percentile : ℚ := if rentRange > 0 then ((maxRent - rent) / (maxRent - minRent)) * 100 else 50
  let affordability := if score ≥ 80 then "very affordable" else
                       if score ≥ 60 then "affordable" else
                       if score ≥ 40 then "moderately priced" else "expensive"
  "Rent is $" ++ rentFormatted ++ "/month (" ++ affordability ++ ", "
    ++ ratToFixed0 percentile ++ "th percentile)"

/-- `CostScore.calculate` (`Calculators.ts`). -/
def costCalculate (location : Location) (allLocations : List Location) : ScoreBreakdown :=
  if location.rent ≤ 0 then
    { score := 0, explanation := "No rent data available", factors := [] }
  else if costRents allLocations = [] then
    { score := 50, explanation := "No rent data available for comparison", factors := [] }
  else
    let baseScore := costBaseScore location allLocations
    let bonusContribution := costBonusContribution location allLocations
    let score := qmax 0 (qmin 100 (baseScore + bonusContribution))
    { score := score
      explanation := generateCostExplanation location.rent (costMinRent allLocations)
        (costMaxRent allLocations) score
      factors :=
        [ { factor := "Relative Rent Cost", value := location.rent, weight := 8/10,
            contribution := baseScore }
        , { factor := "Affordability Adjustment", value := bonusContribution, weight := 2/10,
            contribution := bonusContribution } ] }

/- ------------------------------------------------------------------ -/
/- AmenityScore (`Calculators.ts` lines 271-380)                       -/
/- ------------------------------------------------------------------ -/

/-- JavaScript truthiness of the optional `rating` field: `if (amenity.rating)`
is taken when the rating is defined and nonzero. -/
def ratingTruthy : Option ℚ → Bool
  | none => false
  | some r => r ≠ 0

/-- `basicScore` accumulation of `AmenityScore.calculate` together with the
factors pushed along the way (parking, laundry, pets). -/
def amenityBasicScore (amenities : Amenities) : ℚ :=
  (if amenities.parking then 10 else 0)
    + (if amenities.laundry = Laundry.inUnit then 15
       else if amenities.laundry = Laundry.building then 8 else 0)
    + (if amenities.pets then 5 else 0)

/-- Contribution of one rated amenity (gym / pool / outdoor space): rated
gives `rating / 5 * 20`, present-but-unrated gives the `20 * 0.6` partial
credit, absent gives nothing. -/
def ratedContribution (a : AmenityRating) : ℚ :=
  if a.has then
    match a.rating with
    | some r => if r ≠ 0 then r / 5 * 20 else 20 * (6/10)
    | none => 20 * (6/10)
  else 0

/-- Factors pushed for the basic amenities. -/
def amenityBasicFactors (amenities : Amenities) : List Factor :=
  (if amenities.parking then
    [{ factor := "Parking", value := 1, weight := 25/100, contribution := 10 }] else [])
  ++ (if amenities.laundry = Laundry.inUnit then
    [{ factor := "In-unit Laundry", value := 1, weight := 375/1000, contribution := 15 }]
  else if amenities.laundry = Laundry.building then
    [{ factor := "Building Laundry", value := 1, weight := 2/10, contribution := 8 }]
  else [])
  ++ (if amenities.pets then
    [{ factor := "Pet Friendly", value := 1, weight := 125/1000, contribution := 5 }] else [])

/-- Factor pushed for one rated amenity. -/
def ratedFactor (a : AmenityRating) (name : String) (weight : ℚ) : List Factor :=
  if a.has then
    match a.rating with
    | some r =>
        if r ≠ 0 then
          [{ factor := name ++ " Quality", value := r, weight := weight,
             contribution := r / 5 * 20 }]
        else
          [{ factor := name ++ " Available", value := 1, weight := weight,
             contribution := 20 * (6/10) }]
    | none =>
        [{ factor := name ++ " Available", value := 1, weight := weight,
           contribution := 20 * (6/10) }]
  else []

/-- `AmenityScore.generateAmenityExplanation`. -/
def generateAmenityExplanation (amenities : Amenities) (score : ℚ) : String :=
  let amenityFeatures :=
    (if amenities.parking then ["parking"] else [])
    ++ (if amenities.laundry ≠ Laundry.noLaundry then
          [amenities.laundry.str ++ " laundry"] else [])
    ++ (if amenities.pets then ["pet-friendly"] else [])
    ++ (if amenities.gym.has then ["gym"] else [])
    ++ (if amenities.pool.has then ["pool"] else [])
    ++ (if amenities.outdoorSpace.has then ["outdoor space"] else [])
  let quality := if score ≥ 80 then "excellent" else
                 if score ≥ 60 then "good" else
                 if score ≥ 40 then "moderate" else "limited"
  toString amenityFeatures.length ++ " amenities: "
    ++ String.intercalate ", " amenityFeatures ++ " (" ++ quality ++ ")"

/-- `AmenityScore.calculate` (`Calculators.ts`): the rated-amenity loop runs
over gym, pool and outdoor space in order, then `basicScore` is added and
the total capped at 100. -/
def amenityCalculate (location : Location) : ScoreBreakdown :=
  let amenities := location.amenities
  let ratedSum := ratedContribution amenities.gym + ratedContribution amenities.pool
    + ratedContribution amenities.outdoorSpace
  let score := qmin 100 (ratedSum + amenityBasicScore amenities)
  { score := score
    explanation := generateAmenityExplanation amenities score
    factors := amenityBasicFactors amenities
      ++ ratedFactor amenities.gym "Gym" (2/10)
      ++ ratedFactor amenities.pool "Pool" (2/10)
      ++ ratedFactor amenities.outdoorSpace "Outdoor Space" (2/10) }

/- ------------------------------------------------------------------ -/
/- SizeScore (`Calculators.ts` lines 387-503)                          -/
/- ------------------------------------------------------------------ -/

/-- The positive-square-footage sample the size score normalises against. -/
def sizeSizes (allLocations : List Location) : List ℚ :=
  (allLocations.filter (fun loc => loc.squareFootage > 0)).map Location.squareFootage

/-- `sizeScore` local of `SizeScore.calculate` (0-50 points). -/
def sizeSizeScore (location : Location) (allLocations : List Location) : ℚ :=
  let minSize := listMin (sizeSizes allLocations)
  let maxSize := listMax (sizeSizes allLocations)
  let sizeRange := maxSize - minSize
  if sizeRange > 0 then ((location.squareFootage - minSize) / sizeRange) * 50
  else 25

/-- `bonusScore` local of `SizeScore.calculate`. -/
def sizeBonusScore (location : Location) : ℚ :=
  if location.squareFootage ≥ DEFAULT_SCORE_CONFIG.thresholds.minSquareFootage then 10 else 0

/-- `bedroomScore` local of `SizeScore.calculate` (0-30 points). -/
def sizeBedroomScore (location : Location) : ℚ :=
  (if location.bedrooms ≥ 1 then 10 else 0)
    + (if location.bedrooms ≥ 2 then 10 else 0)
    + (if location.bedrooms ≥ 3 then 10 else 0)

/-- `bathroomScore` local of `SizeScore.calculate` (0-10 points). -/
def sizeBathroomScore (location : Location) : ℚ :=
  (if location.bathrooms ≥ 1 then 5 else 0)
    + (if location.bathrooms ≥ 2 then 5 else 0)

/-- `SizeScore.generateSizeExplanation`. -/
def generateSizeExplanation (sqft bedrooms bathrooms score : ℚ) : String :=
  let sizeRating := if score ≥ 80 then "spacious" else
                    if score ≥ 60 then "comfortable" else
                    if score ≥ 40 then "adequate" else "compact"
  let rooms := toString bedrooms ++ "bed/" ++ toString bathrooms ++ "bath"
  toString sqft ++ " sq ft, " ++ rooms ++ " (" ++ sizeRating ++ ")"

/-- `SizeScore.calculate` (`Calculators.ts`). -/
def sizeCalculate (location : Location) (allLocations : List Location) : ScoreBreakdown :=
  if location.squareFootage ≤ 0 then
    { score := 0, explanation := "No size data available", factors := [] }
  else if sizeSizes allLocations = [] then
    { score := 50, explanation := "No size data available for comparison", factors := [] }
  else
    let sizeScore := sizeSizeScore location allLocations
    let bonusScore := sizeBonusScore location
    let bedroomScore := sizeBedroomScore location
    let bathroomScore := sizeBathroomScore location
    let score := qmin 100 (qmax 0 (sizeScore + bonusScore + bedroomScore + bathroomScore))
    { score := score
      explanation := generateSizeExplanation location.squareFootage location.bedrooms
        location.bathrooms score
      factors :=
        [ { factor := "Relative Square Footage", value := location.squareFootage,
            weight := 5/10, contribution := sizeScore }
        , { factor := "Minimum Size Requirement",
            value := if location.squareFootage ≥ DEFAULT_SCORE_CONFIG.thresholds.minSquareFootage
              then 1 else 0,
            weight := 1/10, contribution := bonusScore }
        , { factor := "Bedroom Count", value := location.bedrooms, weight := 3/10,
            contribution := bedroomScore }
        , { factor := "Bathroom Count", value := location.bathrooms, weight := 1/10,
            contribution := bathroomScore } ] }

/- ------------------------------------------------------------------ -/
/- AnalyticsEngine (`AnalyticsEngine.ts` lines 10-519)                 -/
/- ------------------------------------------------------------------ -/

/-- `AnalyticsResult.metadata`; the pure wall-clock `calculationTime`
field is outside the model. -/
structure ResultMetadata where
  locationsProcessed : ℕ
  pluginId : String
  deriving DecidableEq, Repr, Inhabited

/-- `AnalyticsResult` (`AnalyticsEngine.ts`): per-plugin scores keyed by
location id, plus insight/recommendation strings. -/
structure AnalyticsResult where
  scores : List (String × ℚ)
  insights : List String
  recommendations : List String
  metadata : ResultMetadata
  deriving DecidableEq, Repr, Inhabited

/-- `BaseAnalyticsPlugin.createResult`. -/
def createResult (scores : List (String × ℚ)) (insights recommendations : List String)
    (pluginId : String) : AnalyticsResult :=
  { scores := scores, insights := insights, recommendations := recommendations
    metadata := { locationsProcessed := (mkeys scores).length, pluginId := pluginId } }

/-- `AnalyticsPlugin` interface: a `calculate` that throws is modelled as
returning `none`. -/
structure AnalyticsPlugin where
  id : String
  name : String
  description : String
  calculate : List Location → ScoreConfig → Option AnalyticsResult

/-- `CommuteScorePlugin.calculate`: per-location commute scores via the
centralized calculator, explanations collected as insights. -/
def commuteScorePlugin : AnalyticsPlugin :=
  { id := "commute-score", name := "Commute Score"
    description := "Scores locations based on travel time to work"
    calculate := fun locations _config => some (createResult
      (locations.foldl (fun acc loc => mset acc loc.id (commuteCalculate loc).score) [])
      (locations.map (fun loc => (commuteCalculate loc).explanation))
      [] "commute-score") }

/-- `CostScorePlugin.calculate`: per-location cost scores plus the
average-rent insight and the affordable-count recommendation. -/
def costScorePlugin : AnalyticsPlugin :=
  { id := "cost-score", name := "Cost Score"
    description := "Scores locations based on rent affordability and value"
    calculate := fun locations _config =>
      let rents := (locations.map Location.rent).filter (fun rent => rent > 0)
      let baseInsights := locations.map (fun loc => (costCalculate loc locations).explanation)
      let insights := if rents ≠ [] then
          baseInsights ++ ["Average rent: $"
            ++ ratToFixed0 ((rents.foldl (· + ·) 0) / (rents.length : ℚ) / 100)]
        else baseInsights
      let affordableCount := (rents.filter (fun rent => rent ≤ 500000 * (6/10))).length
      let recommendations := if rents ≠ [] ∧ affordableCount > 0 then
          [toString affordableCount ++ " locations are particularly affordable"]
        else []
      some (createResult
        (locations.foldl (fun acc loc => mset acc loc.id (costCalculate loc locations).score) [])
        insights recommendations "cost-score") }

/-- `AmenityScorePlugin.calculate`. -/
def amenityScorePlugin : AnalyticsPlugin :=
  { id := "amenities-score", name := "Amenity Score"
    description := "Scores locations based on available amenities and their quality ratings"
    calculate := fun locations _config => some (createResult
      (locations.foldl (fun acc loc => mset acc loc.id (amenityCalculate loc).score) [])
      (locations.map (fun loc => (amenityCalculate loc).explanation))
      [] "amenities-score") }

/-- `SizeScorePlugin.calculate`. -/
def sizeScorePlugin : AnalyticsPlugin :=
  { id := "size-score", name := "Size Score"
    description := "Scores locations based on square footage and room counts"
    calculate := fun locations _config => some (createResult
      (locations.foldl (fun acc loc => mset acc loc.id (sizeCalculate loc locations).score) [])
      (locations.map (fun loc => (sizeCalculate loc locations).explanation))
      [] "size-score") }

/-- `AnalyticsEngine` state: the plugin registry (a `Map`), the active
configuration and the single-flight guard. -/
structure AnalyticsEngine where
  plugins : List (String × AnalyticsPlugin)
  config : ScoreConfig
  isCalculating : Bool

/-- `AnalyticsEngine.registerPlugin`: `Map.set`, which overwrites an
existing entry in place (the source merely logs a warning first) and
never throws. -/
def registerPlugin (e : AnalyticsEngine) (p : AnalyticsPlugin) : AnalyticsEngine :=
  { e with plugins := mset e.plugins p.id p }

/-- `AnalyticsEngine.unregisterPlugin`. -/
def unregisterPlugin (e : AnalyticsEngine) (pluginId : String) : AnalyticsEngine :=
  { e with plugins := merase e.plugins pluginId }

/-- `registerCorePlugins` applied to an engine with an empty registry,
as done by the constructor: commute, cost, amenity, size in order. -/
def registerCorePlugins (e : AnalyticsEngine) : AnalyticsEngine :=
  registerPlugin (registerPlugin (registerPlugin (registerPlugin e
    commuteScorePlugin) costScorePlugin) amenityScorePlugin) sizeScorePlugin

/-- The engine produced by `new AnalyticsEngine()` with no config override. -/
def defaultEngine : AnalyticsEngine :=
  registerCorePlugins { plugins := [], config := DEFAULT_SCORE_CONFIG, isCalculating := false }

/-- `AnalyticsEngine.getPluginWeight`: well-known plugin ids map to the
configured weights, unknown ids get the 0.25 default. -/
def getPluginWeight (config : ScoreConfig) (pluginId : String) : ℚ :=
  if pluginId = "commute-score" then config.weights.commute
  else if pluginId = "cost-score" then config.weights.cost
  else if pluginId = "amenities-score" then config.weights.amenities
  else if pluginId = "size-score" then config.weights.size
  else 1/4

/-- Accumulator of the plugin-execution loop in `calculateAnalytics`:
`pluginResults`, `pluginScores`, `allInsights`, `allRecommendations`. -/
structure ExecAcc where
  pluginResults : List (String × AnalyticsResult)
  pluginScores : List (String × List (String × ℚ))
  allInsights : List String
  allRecommendations : List String

/-- One iteration of the plugin loop: a successful `calculate` records the
result and scores and appends insights/recommendations; a throwing plugin
(`none`) is caught, logged and skipped. -/
def execStep (locations : List Location) (config : ScoreConfig)
    (acc : ExecAcc) (p : AnalyticsPlugin) : ExecAcc :=
  match p.calculate locations config with
  | some result =>
      { pluginResults := mset acc.pluginResults p.id result
        pluginScores := mset acc.pluginScores p.id result.scores
        allInsights := acc.allInsights ++ result.insights
        allRecommendations := acc.allRecommendations ++ result.recommendations }
  | none => acc

/-- The full plugin-execution loop over `this.plugins.values()`. -/
def executePlugins (locations : List Location) (config : ScoreConfig)
    (plugins : List AnalyticsPlugin) : ExecAcc :=
  plugins.foldl (execStep locations config) ⟨[], [], [], []⟩

/-- Inner loop of `calculateOverallScores`: fold the weighted plugin
scores for one location over `Object.entries(pluginScores)`, missing
entries contributing `0` (the `scores[location.id] || 0` read). -/
def weightedScoreFor (config : ScoreConfig)
    (pluginScores : List (String × List (String × ℚ))) (locationId : String) : ℚ :=
  pluginScores.foldl
    (fun w entry => w + ((mlookup entry.2 locationId).getD 0) * getPluginWeight config entry.1) 0

/-- `AnalyticsEngine.calculateOverallScores`. -/
def calculateOverallScores (config : ScoreConfig)
    (pluginScores : List (String × List (String × ℚ))) (locations : List Location) :
    List (String × ℚ) :=
  locations.foldl
    (fun acc location => mset acc location.id (weightedScoreFor config pluginScores location.id))
    []

/-- One entry of `topLocations`. -/
structure TopLocation where
  id : String
  score : ℚ
  rank : ℕ
  deriving DecidableEq, Repr, Inhabited

/-- `AnalyticsEngine.getTopLocations`: sort entries by score descending
(stable, as ECMAScript `sort` is) and attach 1-based ranks. -/
def getTopLocations (overallScores : List (String × ℚ)) : List TopLocation :=
  ((overallScores.mergeSort (fun a b => decide (b.2 ≤ a.2))).mapIdx
    (fun index e => { id := e.1, score := e.2, rank := index + 1 }))

/-- Metadata of a combined result; `calculationTime` is outside the model. -/
structure CombinedMetadata where
  locationsProcessed : ℕ
  pluginsExecuted : List String
  deriving DecidableEq, Repr, Inhabited

/-- `CombinedAnalyticsResult` (`AnalyticsEngine.ts`). -/
structure CombinedAnalyticsResult where
  overallScores : List (String × ℚ)
  pluginScores : List (String × List (String × ℚ))
  insights : List String
  recommendations : List String
  topLocations : List TopLocation
  metadata : CombinedMetadata

/-- The body of `calculateAnalytics` once the guard has been passed: run
every registered plugin, combine the weighted overall scores, rank, and
report which plugins produced results (`Object.keys(pluginResults)`). -/
def runCalculation (e : AnalyticsEngine) (locations : List Location) :
    CombinedAnalyticsResult :=
  let acc := executePlugins locations e.config (mvalues e.plugins)
  let overallScores := calculateOverallScores e.config acc.pluginScores locations
  { overallScores := overallScores
    pluginScores := acc.pluginScores
    insights := acc.allInsights
    recommendations := acc.allRecommendations
    topLocations := getTopLocations overallScores
    metadata := { locationsProcessed := locations.length
                  pluginsExecuted := mkeys acc.pluginResults } }

/-- `AnalyticsEngine.calculateAnalytics`: the single-flight guard throws
when a calculation is already in flight; otherwise the flag is raised,
the body runs (plugin failures are absorbed inside `executePlugins`) and
the `finally` block lowers the flag on every exit path, so the returned
engine state is idle again. -/
def calculateAnalytics (e : AnalyticsEngine) (locations : List Location) :
    Except String (CombinedAnalyticsResult × AnalyticsEngine) :=
  if e.isCalculating then .error "Analytics calculation is already in progress"
  else .ok (runCalculation e locations, { e with isCalculating := false })

/- ------------------------------------------------------------------ -/
/- TravelTimeCache (`AnalyticsEngine.ts` source part, lines 522-809)   -/
/- ------------------------------------------------------------------ -/

/-- `CacheEntry`: the bundle, its creation timestamp (`Date.now()` at the
time of the write) and the work coordinates the bundle was computed for. -/
structure CacheEntry where
  data : TravelTimes
  timestamp : ℚ
  workCoords : ℚ × ℚ
  deriving DecidableEq, Repr, Inhabited

/-- Cache TTL: 24 hours in milliseconds. -/
def TTL : ℚ := 24 * 60 * 60 * 1000

/-- Maximum entry count of the cache. -/
def MAX_ENTRIES : ℕ := 100

/-- `value.toFixed(6)` as a rounded rational: round half-up at the sixth
decimal. Two coordinates produce the same key text exactly when they
round to the same value (the `-0.000000` / `0.000000` distinction of the
string form is immaterial at the tolerances the cache is used with). -/
def toFixed6 (q : ℚ) : ℚ :=
  Rat.divInt (Int.fdiv (q * 1000000 + 1/2).num ((q * 1000000 + 1/2).den : ℤ)) 1000000

/-- A cache key: origin (work) coordinates and destination coordinates,
both at 6-decimal precision (`generateKey` reads `location.position` and
builds the string `"workLat,workLng_posLat,posLng"`). -/
abbrev CacheKey := (ℚ × ℚ) × (ℚ × ℚ)

/-- `TravelTimeCache.generateKey`. -/
def generateKey (workCoords : ℚ × ℚ) (position : ℚ × ℚ) : CacheKey :=
  ((toFixed6 workCoords.1, toFixed6 workCoords.2),
   (toFixed6 position.1, toFixed6 position.2))

/-- The cache map in insertion order, as a JavaScript `Map`. -/
abbrev CacheState := List (CacheKey × CacheEntry)

/-- `TravelTimeCache.isExpired`: strictly older than the TTL. -/
def isExpired (now : ℚ) (entry : CacheEntry) : Bool :=
  now - entry.timestamp > TTL

/-- `TravelTimeCache.get`: `null` without work coordinates, on a missing
key, or on an expired entry — and the expired branch also deletes the
entry (`this.cache.delete(key)`) before returning `null`. The returned
pair is (result, cache state after the read). -/
def cacheGet (st : CacheState) (now : ℚ) (workCoords : Option (ℚ × ℚ))
    (location : Location) : Option TravelTimes × CacheState :=
  match workCoords with
  | none => (none, st)
  | some w =>
      let key := generateKey w location.position
      match mlookup st key with
      | none => (none, st)
      | some entry =>
          if isExpired now entry then (none, merase st key)
          else (some entry.data, st)

/-- `TravelTimeCache.performLRUCleanup`: sort the entries by timestamp
ascending (stable), compute `keepCount = MAX_ENTRIES * 0.8 = 80`, and
delete every key of `entries.slice(keepCount)` — i.e. of the sorted tail
— from the map. -/
def performLRUCleanup (st : CacheState) : CacheState :=
  let entries := st.mergeSort (fun a b => decide (a.2.timestamp ≤ b.2.timestamp))
  let keepCount : ℕ := 80
  let toRemove := entries.drop keepCount
  let removedKeys := toRemove.map Prod.fst
  st.filter (fun e => !(removedKeys.contains e.1))

/-- `TravelTimeCache.performCleanup`: drop TTL-expired entries, then run
the LRU sweep if the cache is still above capacity. -/
def performCleanup (now : ℚ) (st : CacheState) : CacheState :=
  let st1 := st.filter (fun e => !(isExpired now e.2))
  if st1.length > MAX_ENTRIES then performLRUCleanup st1 else st1

/-- `TravelTimeCache.set`: no-op without work coordinates; otherwise
upsert the entry (keyed at 6-decimal precision, stamped `Date.now()`)
and trigger the capacity check. -/
def cacheSet (st : CacheState) (now : ℚ) (workCoords : Option (ℚ × ℚ))
    (location : Location) (travelTimes : TravelTimes) : CacheState :=
  match workCoords with
  | none => st
  | some w =>
      let key := generateKey w location.position
      let st1 := mset st key { data := travelTimes, timestamp := now, workCoords := w }
      if st1.length > MAX_ENTRIES then performCleanup now st1 else st1

/-- `TravelTimeCache.coordinatesMatch`: componentwise tolerance 1e-6. -/
def coordinatesMatch (c1 c2 : ℚ × ℚ) : Bool :=
  |c1.1 - c2.1| < 1/1000000 ∧ |c1.2 - c2.2| < 1/1000000

/-- `TravelTimeCache.invalidateByWorkAddress`. -/
def invalidateByWorkAddress (st : CacheState) (workCoords : ℚ × ℚ) : CacheState :=
  st.filter (fun e => !(coordinatesMatch e.2.workCoords workCoords))

/-- `TravelTimeCache.clear`. -/
def cacheClear (_st : CacheState) : CacheState := []

/- ------------------------------------------------------------------ -/
/- TravelTimeService (`TravelTimeService.ts`)                          -/
/- ------------------------------------------------------------------ -/

/-- Travel mode union `'walking' | 'driving' | 'transit'`. -/
inductive TravelMode where
  | walking
  | driving
  | transit
  deriving DecidableEq, Repr, Inhabited

/-- One element of a Google Distance Matrix row: a status and optional
distance/duration values (in meters and seconds). -/
structure DMElement where
  status : String
  distance : Option ℝ
  duration : Option ℝ

/-- One row of a Distance Matrix response. -/
structure DMRow where
  elements : List DMElement

/-- `GoogleDistanceMatrixResponse`. -/
structure DMResponse where
  rows : List DMRow
  status : String

/-- Result of `fetch` + `json()` for one request: `Except.error` models a
thrown network/parse error. -/
abbrev FetchOutcome := Except Unit DMResponse

/-- A travel-time pair as produced by `TravelTimeService`, over `ℝ`
because the fallback path computes with trigonometry. -/
structure TravelTimeR where
  distance : ℝ
  duration : ℝ
  deriving Inhabited

/-- A `TravelTimeResult` of the batched path. -/
structure TravelTimeResult where
  locationId : String
  walking : TravelTimeR
  driving : TravelTimeR
  transit : TravelTimeR
  deriving Inhabited

/-- The all-zero result pushed for a destination when its batch fails. -/
def zeroResult (locationId : String) : TravelTimeResult :=
  { locationId := locationId
    walking := { distance := 0, duration := 0 }
    driving := { distance := 0, duration := 0 }
    transit := { distance := 0, duration := 0 } }

noncomputable section RealGeo

/-- `toRadians` (`TravelTimeService.ts`). -/
def toRadians (degrees : ℝ) : ℝ := degrees * (Real.pi / 180)

/-- ECMAScript `Math.atan2`. -/
def atan2 (y x : ℝ) : ℝ :=
  if 0 < x then Real.arctan (y / x)
  else if x < 0 then
    (if 0 ≤ y then Real.arctan (y / x) + Real.pi else Real.arctan (y / x) - Real.pi)
  else
    (if 0 < y then Real.pi / 2 else if y < 0 then -(Real.pi / 2) else 0)

/-- The Haversine distance computed inside
`TravelTimeService.calculateStraightLineDistance`: Earth radius
6371000 m, `c = 2 * atan2(sqrt a, sqrt (1 - a))`. -/
def haversineDistanceMeters (origin destination : ℝ × ℝ) : ℝ :=
  let R : ℝ := 6371000
  let dLat := toRadians (destination.1 - origin.1)
  let dLng := toRadians (destination.2 - origin.2)
  let a := Real.sin (dLat / 2) * Real.sin (dLat / 2)
    + Real.cos (toRadians origin.1) * Real.cos (toRadians destination.1)
      * Real.sin (dLng / 2) * Real.sin (dLng / 2)
  let c := 2 * atan2 (Real.sqrt a) (Real.sqrt (1 - a))
  R * c

/-- The average-speed table of `calculateStraightLineDistance`, in meters
per minute (the `default` arm of the `switch` repeats the walking speed
and is unreachable over the three-constructor mode type). -/
def avgSpeed : TravelMode → ℝ
  | .walking => 80
  | .driving => 1000
  | .transit => 300

/-- `TravelTimeService.calculateStraightLineDistance` on coordinates that
parsed successfully (the model works on coordinate pairs directly, so the
NaN-parse guard that returns `null` cannot fire): Haversine distance and
`Math.round(distance / avgSpeed)` minutes. -/
def calculateStraightLineDistance (origin destination : ℝ × ℝ) (mode : TravelMode) :
    Option TravelTimeR :=
  let distance := haversineDistanceMeters origin destination
  let duration : ℝ := (round (distance / avgSpeed mode) : ℤ)
  some { distance := distance, duration := duration }

/-- `TravelTimeService.calculateSingleMode`: on a well-formed OK response
the API distance is taken as-is and the API duration (seconds) is stored
as `Math.round(value / 60)` minutes; any other response shape and any
thrown fetch error fall back to the straight-line estimate. -/
def calculateSingleMode (origin destination : ℝ × ℝ) (mode : TravelMode)
    (response : FetchOutcome) : Option TravelTimeR :=
  match response with
  | .error _ => calculateStraightLineDistance origin destination mode
  | .ok data =>
      match data.rows.head? with
      | some row =>
          match row.elements.head? with
          | some element =>
              if data.status = "OK" ∧ element.status = "OK" then
                match element.distance, element.duration with
                | some dv, some sv =>
                    some { distance := dv, duration := ((round (sv / 60) : ℤ) : ℝ) }
                | _, _ => calculateStraightLineDistance origin destination mode
              else calculateStraightLineDistance origin destination mode
          | none => calculateStraightLineDistance origin destination mode
      | none => calculateStraightLineDistance origin destination mode

/-- Walking result for batch element `j` of a successful walking batch
response (`calculateBatchTravelTimes`, walking loop): distance and
minutes only when the response and the element are OK, zeros otherwise. -/
def walkingOfBatch (response : DMResponse) (j : ℕ) : TravelTimeR :=
  match response.rows.head? with
  | some row =>
      match row.elements.get? j with
      | some element =>
          if response.status = "OK" ∧ element.status = "OK" then
            { distance := (element.distance.getD 0)
              duration := ((round ((element.duration.getD 0) / 60) : ℤ) : ℝ) }
          else { distance := 0, duration := 0 }
      | none => { distance := 0, duration := 0 }
  | none => { distance := 0, duration := 0 }

/-- `addAdditionalModes` for one element: a thrown or non-OK mode
response leaves the zeros in place, an OK response with an OK element
overwrites the mode entry. -/
def additionalModeOfBatch (response : FetchOutcome) (j : ℕ) : TravelTimeR :=
  match response with
  | .error _ => { distance := 0, duration := 0 }
  | .ok data =>
      if data.status = "OK" then
        match data.rows.head? with
        | some row =>
            match row.elements.get? j with
            | some element =>
                if element.status = "OK" then
                  { distance := (element.distance.getD 0)
                    duration := ((round ((element.duration.getD 0) / 60) : ℤ) : ℝ) }
                else { distance := 0, duration := 0 }
            | none => { distance := 0, duration := 0 }
        | none => { distance := 0, duration := 0 }
      else { distance := 0, duration := 0 }

/-- One batch of up to 10 destinations in `calculateBatchTravelTimes`: if
the walking request throws, the whole batch degrades to all-zero results
(the caught branch pushes empty results and the driving/transit requests
are not reached); otherwise walking entries are filled from the walking
response and driving/transit entries from their own requests. -/
def processBatch (batchLocations : List Location)
    (respOf : TravelMode → FetchOutcome) : List TravelTimeResult :=
  match respOf .walking with
  | .error _ => batchLocations.map (fun loc => zeroResult loc.id)
  | .ok w =>
      batchLocations.mapIdx (fun j loc =>
        { locationId := loc.id
          walking := walkingOfBatch w j
          driving := additionalModeOfBatch (respOf .driving) j
          transit := additionalModeOfBatch (respOf .transit) j })

/-- The batch loop of `calculateBatchTravelTimes`: slices of
`BATCH_SIZE = 10` destinations, each batch resolved against its own three
per-mode responses (`resp b m` is the outcome of the request for batch
`b` and mode `m`); the inter-batch 100 ms delay is pure throttling. -/
def runBatches (resp : ℕ → TravelMode → FetchOutcome) :
    ℕ → List Location → List TravelTimeResult
  | _, [] => []
  | b, x :: xs =>
      processBatch ((x :: xs).take 10) (resp b)
        ++ runBatches resp (b + 1) ((x :: xs).drop 10)
termination_by _ l => l.length
decreasing_by simp [List.length_drop]; omega

/-- `TravelTimeService.calculateBatchTravelTimes`: empty without work
coordinates, otherwise the batch loop from batch 0. -/
def calculateBatchTravelTimes (workCoords : Option (ℝ × ℝ)) (locations : List Location)
    (resp : ℕ → TravelMode → FetchOutcome) : List TravelTimeResult :=
  match workCoords with
  | none => []
  | some _ => runBatches resp 0 locations

end RealGeo

/- ------------------------------------------------------------------ -/
/- Shared lemmas                                                       -/
/- ------------------------------------------------------------------ -/

theorem qmin_le_left (a b : ℚ) : qmin a b ≤ a := by
  unfold qmin; split_ifs with h
  · exact le_refl a
  · exact le_of_not_le h

theorem le_qmin {a b c : ℚ} (h1 : c ≤ a) (h2 : c ≤ b) : c ≤ qmin a b := by
  unfold qmin; split_ifs <;> assumption

theorem qmax_le {a b c : ℚ} (h1 : a ≤ c) (h2 : b ≤ c) : qmax a b ≤ c := by
  unfold qmax; split_ifs <;> assumption

theorem le_qmax_left (a b : ℚ) : a ≤ qmax a b := by
  unfold qmax; split_ifs with h
  · exact le_refl a
  · exact le_of_not_le h

theorem mlookup_mset_self {κ α : Type} [DecidableEq κ] (m : List (κ × α)) (k : κ) (v : α) :
    mlookup (mset m k v) k = some v := by
  induction m with
  | nil => simp [mset, mlookup]
  | cons e t ih =>
      by_cases h : e.1 = k
      · simp [mset, h, mlookup]
      · simp [mset, h, mlookup, ih]

theorem mlookup_mset_ne {κ α : Type} [DecidableEq κ] (m : List (κ × α)) (k k' : κ) (v : α)
    (h : k ≠ k') : mlookup (mset m k v) k' = mlookup m k' := by
  induction m with
  | nil => simp [mset, mlookup, h]
  | cons e t ih =>
      by_cases he : e.1 = k
      · simp [mset, he, mlookup, h]
      · simp [mset, he, mlookup, ih]

theorem mkeys_cons {κ α : Type} (e : κ × α) (t : List (κ × α)) :
    mkeys (e :: t) = e.1 :: mkeys t := rfl

theorem mkeys_mset_of_mem {κ α : Type} [DecidableEq κ] (m : List (κ × α)) (k : κ) (v : α)
    (h : k ∈ mkeys m) : mkeys (mset m k v) = mkeys m := by
  induction m with
  | nil => exact absurd h (List.not_mem_nil k)
  | cons e t ih =>
      by_cases he : e.1 = k
      · simp only [mset, he, eq_self_iff_true, if_true, mkeys_cons]
      · simp only [mset, if_neg he, mkeys_cons]
        rw [mkeys_cons] at h
        rcases List.mem_cons.mp h with h | h
        · exact absurd h.symm he
        · rw [ih h]

theorem mem_mkeys_mset {κ α : Type} [DecidableEq κ] (m : List (κ × α)) (k x : κ) (v : α)
    (h : x ∈ mkeys (mset m k v)) : x ∈ mkeys m ∨ x = k := by
  induction m with
  | nil =>
      rw [mset, mkeys_cons] at h
      rcases List.mem_cons.mp h with h | h
      · exact Or.inr h
      · exact absurd h (List.not_mem_nil x)
  | cons e t ih =>
      by_cases he : e.1 = k
      · simp only [mset, he, eq_self_iff_true, if_true, mkeys_cons] at h
        rcases List.mem_cons.mp h with h | h
        · exact Or.inr h
        · exact Or.inl (List.mem_cons.mpr (Or.inr h))
      · simp only [mset, if_neg he, mkeys_cons] at h
        rcases List.mem_cons.mp h with h | h
        · exact Or.inl (List.mem_cons.mpr (Or.inl h))
        · rcases ih h with h' | h'
          · exact Or.inl (List.mem_cons.mpr (Or.inr h'))
          · exact Or.inr h'

/- ------------------------------------------------------------------ -/
/- C1                                                                  -/
/- ------------------------------------------------------------------ -/

/-- Modelled from the spec (§4.4 Commute sentence), for comparison with the
code: `bestTime` is the minimum of the three per-mode durations in minutes
(the unit the Travel-Time Bundle stores), stepped at 15/30/45/60 minutes to
100/85/70/50/25, plus a +10 bonus capped at 100 when at least two modes are
at most 30 minutes each. -/
def specCommuteScore (tts : TravelTimes) : ℚ :=
  let bestTime := qmin tts.walking.duration (qmin tts.driving.duration tts.transit.duration)
  let base : ℚ :=
    if bestTime ≤ 15 then 100
    else if bestTime ≤ 30 then 85
    else if bestTime ≤ 45 then 70
    else if bestTime ≤ 60 then 50
    else 25
  let goodModes := ([tts.walking.duration, tts.driving.duration, tts.transit.duration].filter
    (fun t => t ≤ 30)).length
  if goodModes ≥ 2 then qmin 100 (base + 10) else base

/-- C1: the claim fails on the code. The travel-time service stores bundle
durations in minutes (third conjunct: an API duration of 7200 seconds is
stored as 120), yet `CommuteScore.calculate` divides the stored duration by
60 again, so a candidate whose best stored commute is 120 minutes scores 100
where the claimed step function yields 25. -/
theorem c1_commute_minute_unit_bug :
    (commuteCalculate (Location.mk "two-hour-commute" (0, 0) 150000 900 2 1 default
        (some ⟨⟨9600, 120⟩, ⟨120000, 120⟩, ⟨36000, 120⟩⟩))).score = 100
    ∧ specCommuteScore ⟨⟨9600, 120⟩, ⟨120000, 120⟩, ⟨36000, 120⟩⟩ = 25
    ∧ calculateSingleMode (0, 0) (1, 1) .walking
        (.ok ⟨[⟨[⟨"OK", some 9600, some 7200⟩]⟩], "OK"⟩)
        = some ⟨9600, 120⟩ := by
  refine ⟨by with_unfolding_all decide, by with_unfolding_all decide, ?_⟩
  have h60 : ((7200 : ℝ) / 60) = ((120 : ℤ) : ℝ) := by norm_num
  simp only [calculateSingleMode, List.head?, h60, round_intCast]
  norm_num

/- ------------------------------------------------------------------ -/
/- C8                                                                  -/
/- ------------------------------------------------------------------ -/

/-- The data-model invariant on one rated amenity: the rating, when
present, is a 1-5 star value, and a present rating implies the amenity
is flagged as present. -/
def RatingOk (a : AmenityRating) : Prop :=
  (∀ r, a.rating = some r → 1 ≤ r ∧ r ≤ 5) ∧ (a.rating.isSome = true → a.has = true)

/-- The data-model invariants of §3 on a candidate: rent, floor area and
room counts nonnegative, amenity ratings in range. -/
def ValidLocation (loc : Location) : Prop :=
  0 ≤ loc.rent ∧ 0 ≤ loc.squareFootage ∧ 0 ≤ loc.bedrooms ∧ 0 ≤ loc.bathrooms
    ∧ RatingOk loc.amenities.gym ∧ RatingOk loc.amenities.pool
    ∧ RatingOk loc.amenities.outdoorSpace

theorem commuteScore_bounds (loc : Location) :
    0 ≤ (commuteCalculate loc).score ∧ (commuteCalculate loc).score ≤ 100 := by
  rcases htt : loc.travelTimes with _ | tts
  · simp [commuteCalculate, htt]
  · simp only [commuteCalculate, htt]
    refine ⟨le_qmin (by norm_num) ?_, qmin_le_left _ _⟩
    split_ifs <;> norm_num

theorem costScore_bounds (loc : Location) (allLocations : List Location) :
    0 ≤ (costCalculate loc allLocations).score
      ∧ (costCalculate loc allLocations).score ≤ 100 := by
  unfold costCalculate
  split_ifs with h1 h2
  · norm_num
  · norm_num
  · exact ⟨le_qmax_left 0 _, qmax_le (by norm_num) (qmin_le_left _ _)⟩

theorem sizeScore_bounds (loc : Location) (allLocations : List Location) :
    0 ≤ (sizeCalculate loc allLocations).score
      ∧ (sizeCalculate loc allLocations).score ≤ 100 := by
  unfold sizeCalculate
  split_ifs
  · norm_num
  · norm_num
  all_goals exact ⟨le_qmin (by norm_num) (le_qmax_left 0 _), qmin_le_left _ _⟩

theorem ratedContribution_nonneg (a : AmenityRating) (hok : RatingOk a) :
    0 ≤ ratedContribution a := by
  unfold ratedContribution
  split_ifs with hhas
  · rcases hr : a.rating with _ | r
    · norm_num
    · have h15 := hok.1 r hr
      simp only [hr]
      split_ifs
      · have h0 : (0 : ℚ) ≤ r := le_trans (by norm_num) h15.1
        positivity
      · norm_num
  · exact le_refl 0

theorem amenityBasicScore_nonneg (amenities : Amenities) :
    0 ≤ amenityBasicScore amenities := by
  unfold amenityBasicScore
  split_ifs <;> norm_num

theorem amenityScore_bounds (loc : Location)
    (hg : RatingOk loc.amenities.gym) (hp : RatingOk loc.amenities.pool)
    (ho : RatingOk loc.amenities.outdoorSpace) :
    0 ≤ (amenityCalculate loc).score ∧ (amenityCalculate loc).score ≤ 100 := by
  unfold amenityCalculate
  refine ⟨le_qmin (by norm_num) ?_, qmin_le_left _ _⟩
  have h1 := ratedContribution_nonneg _ hg
  have h2 := ratedContribution_nonneg _ hp
  have h3 := ratedContribution_nonneg _ ho
  have h4 := amenityBasicScore_nonneg loc.amenities
  linarith

/-- C8: every candidate satisfying the §3 data-model invariants gets a
score in [0, 100] from each of the four scoring algorithms, in any
candidate set containing it. -/
theorem c8_score_bounds (loc : Location) (allLocations : List Location)
    (hvalid : ValidLocation loc) (_hmem : loc ∈ allLocations) :
    (0 ≤ (commuteCalculate loc).score ∧ (commuteCalculate loc).score ≤ 100)
    ∧ (0 ≤ (costCalculate loc allLocations).score
        ∧ (costCalculate loc allLocations).score ≤ 100)
    ∧ (0 ≤ (amenityCalculate loc).score ∧ (amenityCalculate loc).score ≤ 100)
    ∧ (0 ≤ (sizeCalculate loc allLocations).score
        ∧ (sizeCalculate loc allLocations).score ≤ 100) :=
  ⟨commuteScore_bounds loc, costScore_bounds loc allLocations,
    amenityScore_bounds loc hvalid.2.2.2.2.1 hvalid.2.2.2.2.2.1 hvalid.2.2.2.2.2.2,
    sizeScore_bounds loc allLocations⟩

/-- A concrete candidate satisfying the §3 invariants, for witnessing. -/
def sampleValidLocation : Location :=
  { id := "sample", position := (0, 0), rent := 150000, squareFootage := 900
    bedrooms := 2, bathrooms := 1
    amenities := { gym := ⟨true, some 4⟩, pool := ⟨false, none⟩
                   outdoorSpace := ⟨false, none⟩, parking := true
                   laundry := Laundry.inUnit, pets := false }
    travelTimes := some ⟨⟨960, 12⟩, ⟨12000, 12⟩, ⟨3600, 12⟩⟩ }

/-- Witness for C8 at a concrete candidate. -/
theorem c8_score_bounds_witness :
    ValidLocation sampleValidLocation ∧ sampleValidLocation ∈ [sampleValidLocation]
    ∧ ((0 ≤ (commuteCalculate sampleValidLocation).score
          ∧ (commuteCalculate sampleValidLocation).score ≤ 100)
      ∧ (0 ≤ (costCalculate sampleValidLocation [sampleValidLocation]).score
          ∧ (costCalculate sampleValidLocation [sampleValidLocation]).score ≤ 100)
      ∧ (0 ≤ (amenityCalculate sampleValidLocation).score
          ∧ (amenityCalculate sampleValidLocation).score ≤ 100)
      ∧ (0 ≤ (sizeCalculate sampleValidLocation [sampleValidLocation]).score
          ∧ (sizeCalculate sampleValidLocation [sampleValidLocation]).score ≤ 100)) := by
  have hv : ValidLocation sampleValidLocation := by
    refine ⟨by norm_num [sampleValidLocation], by norm_num [sampleValidLocation],
      by norm_num [sampleValidLocation], by norm_num [sampleValidLocation],
      ⟨?_, fun _ => rfl⟩,
      ⟨?_, by intro h; simp [sampleValidLocation] at h⟩,
      ⟨?_, by intro h; simp [sampleValidLocation] at h⟩⟩
    · intro r hr
      simp only [sampleValidLocation, Option.some.injEq] at hr
      subst hr; norm_num
    · intro r hr
      simp [sampleValidLocation] at hr
    · intro r hr
      simp [sampleValidLocation] at hr
  have hm : sampleValidLocation ∈ [sampleValidLocation] := List.mem_singleton.mpr rfl
  exact ⟨hv, hm, c8_score_bounds sampleValidLocation [sampleValidLocation] hv hm⟩

/- ------------------------------------------------------------------ -/
/- C9                                                                  -/
/- ------------------------------------------------------------------ -/

/-- Modelled from the spec (§4.4 Cost sentence, claim C9), for comparison
with the code: the base score normalises within the candidate set as
`100 × (maxRent − rent) / (maxRent − minRent)` with `maxRent` clamped to
the max-rent threshold of the analytics configuration in effect, and is
100 when all positive rents are equal. -/
def specCostBase (config : ScoreConfig) (location : Location)
    (allLocations : List Location) : ℚ :=
  let rents := costRents allLocations
  let minRent := listMin rents
  let maxRent := qmin (listMax rents) config.thresholds.maxRent
  if rents.all (fun r => decide (r = minRent)) then 100
  else 100 * (maxRent - location.rent) / (maxRent - minRent)

/-- C9 counterexample: with the max-rent threshold configured to 300000
cents and rents 200000/400000, the claim predicts a base of
`100 × (300000 − 400000) / (300000 − 200000) = −100` for the expensive
candidate, but the code clamps against `DEFAULT_SCORE_CONFIG` (500000)
regardless of the configuration in effect and computes 0. -/
theorem c9_config_threshold_counterexample :
    costBaseScore
        (Location.mk "expensive" (0, 0) 400000 700 1 1 default none)
        [Location.mk "cheap" (0, 0) 200000 900 2 1 default none,
         Location.mk "expensive" (0, 0) 400000 700 1 1 default none]
      ≠ specCostBase
        { DEFAULT_SCORE_CONFIG with
            thresholds := { DEFAULT_SCORE_CONFIG.thresholds with maxRent := 300000 } }
        (Location.mk "expensive" (0, 0) 400000 700 1 1 default none)
        [Location.mk "cheap" (0, 0) 200000 900 2 1 default none,
         Location.mk "expensive" (0, 0) 400000 700 1 1 default none] := by
  have hcode : costBaseScore
      (Location.mk "expensive" (0, 0) 400000 700 1 1 default none)
      [Location.mk "cheap" (0, 0) 200000 900 2 1 default none,
       Location.mk "expensive" (0, 0) 400000 700 1 1 default none] = 0 := by
    simp [costBaseScore, costMaxRent, costMinRent, costRents, listMin, listMax,
      qmin, qmax, DEFAULT_SCORE_CONFIG]
    norm_num
  have hspec : specCostBase
      { DEFAULT_SCORE_CONFIG with
          thresholds := { DEFAULT_SCORE_CONFIG.thresholds with maxRent := 300000 } }
      (Location.mk "expensive" (0, 0) 400000 700 1 1 default none)
      [Location.mk "cheap" (0, 0) 200000 900 2 1 default none,
       Location.mk "expensive" (0, 0) 400000 700 1 1 default none] = -100 := by
    simp [specCostBase, costRents, listMin, listMax, qmin, qmax, DEFAULT_SCORE_CONFIG]
    norm_num
  rw [hcode, hspec]
  norm_num

theorem listMax_const (m : ℚ) : ∀ (l : List ℚ) (acc : ℚ),
    (∀ r ∈ l, r = m) → acc = m → l.foldl qmax acc = m := by
  intro l
  induction l with
  | nil => intro acc _ hacc; exact hacc
  | cons x xs ih =>
      intro acc hall hacc
      have hx : x = m := hall x (List.mem_cons_self x xs)
      have : qmax acc x = m := by
        rw [hacc, hx]; unfold qmax; rw [if_pos (le_refl m)]
      exact ih (qmax acc x) (fun r hr => hall r (List.mem_cons_of_mem x hr)) this

/-- C9 amended: the Cost base score (also exposed as the contribution of
the first factor of the breakdown) equals
`100 × (maxRent − rent) / (maxRent − minRent)` whenever the clamped rent
range is positive, and equals 100 when all positive rents are equal — but
`maxRent` is clamped to the `DEFAULT_SCORE_CONFIG` max-rent threshold
(500000 cents), not to the threshold of the configuration in effect. -/
theorem c9_cost_base_amended (loc : Location) (allLocations : List Location)
    (h1 : loc.rent > 0) (h2 : costRents allLocations ≠ []) :
    ((costCalculate loc allLocations).factors.map Factor.contribution).head?
        = some (costBaseScore loc allLocations)
    ∧ (costMaxRent allLocations - costMinRent allLocations > 0 →
        costBaseScore loc allLocations
          = 100 * (costMaxRent allLocations - loc.rent)
              / (costMaxRent allLocations - costMinRent allLocations))
    ∧ ((∀ r ∈ costRents allLocations, r = costMinRent allLocations) →
        costBaseScore loc allLocations = 100) := by
  refine ⟨?_, ?_, ?_⟩
  · unfold costCalculate
    rw [if_neg (not_le.mpr h1), if_neg h2]
    simp
  · intro hrange
    have hne : costMaxRent allLocations - costMinRent allLocations ≠ 0 := ne_of_gt hrange
    simp only [costBaseScore]
    rw [if_pos hrange]
    field_simp
    ring
  · intro hall
    have hmax : listMax (costRents allLocations) = costMinRent allLocations := by
      rcases hr : costRents allLocations with _ | ⟨x, xs⟩
      · exact absurd hr h2
      · rw [hr] at hall
        unfold listMax
        exact listMax_const _ xs x (fun r hrr => hall r (List.mem_cons_of_mem x hrr))
          (hall x (List.mem_cons_self x xs))
    have hclamp : costMaxRent allLocations ≤ costMinRent allLocations := by
      rw [costMaxRent, hmax]
      exact qmin_le_left _ _
    simp only [costBaseScore]
    rw [if_neg (by linarith)]

/- ------------------------------------------------------------------ -/
/- C3                                                                  -/
/- ------------------------------------------------------------------ -/

theorem toFixed6_eq (q : ℚ) :
    toFixed6 q = ((round (q * 1000000) : ℤ) : ℚ) / 1000000 := by
  have h1 : Int.fdiv (q * 1000000 + 1/2).num ((q * 1000000 + 1/2).den : ℤ)
      = ⌊q * 1000000 + 1/2⌋ := by
    rw [Int.fdiv_eq_ediv _ (Int.ofNat_nonneg _), Rat.floor_def]
  rw [toFixed6, h1, Rat.divInt_eq_div, round_eq]
  norm_num

theorem toFixed6_natCast (n : ℕ) : toFixed6 (n : ℚ) = (n : ℚ) := by
  rw [toFixed6_eq]
  have h : ((n : ℚ) * 1000000) = ((n * 1000000 : ℤ) : ℚ) := by push_cast; ring
  rw [h, round_intCast]
  push_cast
  field_simp

theorem mset_append_of_not_mem {κ α : Type} [DecidableEq κ] (m : List (κ × α)) (k : κ) (v : α)
    (h : k ∉ mkeys m) : mset m k v = m ++ [(k, v)] := by
  induction m with
  | nil => rfl
  | cons e t ih =>
      rw [mkeys_cons] at h
      have he : e.1 ≠ k := fun hc => h (List.mem_cons.mpr (Or.inl hc.symm))
      have ht : k ∉ mkeys t := fun hc => h (List.mem_cons.mpr (Or.inr hc))
      simp only [mset, if_neg he, List.cons_append, ih ht]

/-- On a state already sorted by timestamp with pairwise-distinct keys, the
LRU sweep keeps exactly the first (oldest) 80 entries. -/
theorem performLRUCleanup_sorted (st : CacheState)
    (hsort : st.Pairwise (fun a b => a.2.timestamp ≤ b.2.timestamp))
    (hnod : (mkeys st).Nodup) :
    performLRUCleanup st = st.take 80 := by
  unfold performLRUCleanup
  have hms : st.mergeSort (fun a b => decide (a.2.timestamp ≤ b.2.timestamp)) = st :=
    List.mergeSort_of_sorted (hsort.imp (fun h => decide_eq_true h))
  rw [hms]
  have hnodsplit : (mkeys (st.take 80)).Nodup ∧ (mkeys (st.drop 80)).Nodup
      ∧ (mkeys (st.take 80)).Disjoint (mkeys (st.drop 80)) := by
    have hk : mkeys st = mkeys (st.take 80) ++ mkeys (st.drop 80) := by
      rw [mkeys, mkeys, mkeys, ← List.map_append, List.take_append_drop]
    rw [hk] at hnod
    exact List.nodup_append.mp hnod
  set rk := (st.drop 80).map Prod.fst with hrkdef
  have htake : (st.take 80).filter (fun e => !rk.contains e.1) = st.take 80 := by
    apply List.filter_eq_self.mpr
    intro e he
    have hmem : e.1 ∉ mkeys (st.drop 80) := fun hc =>
      hnodsplit.2.2 (List.mem_map_of_mem Prod.fst he) hc
    simp only [List.contains, Bool.not_eq_true']
    rw [← Bool.not_eq_true]
    intro hc
    exact hmem (List.elem_iff.mp hc)
  have hdrop : (st.drop 80).filter (fun e => !rk.contains e.1) = [] := by
    apply List.filter_eq_nil_iff.mpr
    intro e he
    have hmem : e.1 ∈ rk := List.mem_map_of_mem Prod.fst he
    simp only [List.contains, Bool.not_eq_true', Bool.not_eq_false]
    exact List.elem_iff.mpr hmem
  calc st.filter (fun e => !rk.contains e.1)
      = (st.take 80 ++ st.drop 80).filter (fun e => !rk.contains e.1) := by
        rw [List.take_append_drop]
    _ = (st.take 80).filter (fun e => !rk.contains e.1)
          ++ (st.drop 80).filter (fun e => !rk.contains e.1) := List.filter_append _ _
    _ = st.take 80 := by rw [htake, hdrop, List.append_nil]

theorem performCleanup_no_expired (now : ℚ) (st : CacheState)
    (h : ∀ e ∈ st, isExpired now e.2 = false) :
    performCleanup now st = if st.length > MAX_ENTRIES then performLRUCleanup st else st := by
  unfold performCleanup
  rw [List.filter_eq_self.mpr (fun e he => by rw [h e he]; rfl)]

theorem mlookup_eq_none_of_not_mem {κ α : Type} [DecidableEq κ] (m : List (κ × α)) (k : κ)
    (h : k ∉ mkeys m) : mlookup m k = none := by
  induction m with
  | nil => rfl
  | cons e t ih =>
      rw [mkeys_cons] at h
      have he : e.1 ≠ k := fun hc => h (List.mem_cons.mpr (Or.inl hc.symm))
      have ht : k ∉ mkeys t := fun hc => h (List.mem_cons.mpr (Or.inr hc))
      simp only [mlookup, if_neg he, ih ht]

/-- One synthetic cache entry: key from work origin (0,0) and position
(i, 0), written at time `i`. -/
def c3Entry (i : ℕ) : CacheKey × CacheEntry :=
  (generateKey (0, 0) ((i : ℚ), 0),
   { data := ⟨⟨1, 1⟩, ⟨1, 1⟩, ⟨1, 1⟩⟩, timestamp := (i : ℚ), workCoords := (0, 0) })

/-- The cache after `n` distinct insertions at times 0, 1, …, n−1. -/
def c3State (n : ℕ) : CacheState := (List.range n).map c3Entry

theorem c3KeyInjective :
    Function.Injective (fun i : ℕ => generateKey (0, 0) ((i : ℚ), 0)) := by
  intro i j hij
  have h1 : toFixed6 ((i : ℚ)) = toFixed6 ((j : ℚ)) := congrArg (fun p => p.2.1) hij
  rw [toFixed6_natCast, toFixed6_natCast] at h1
  exact_mod_cast h1

theorem c3State_keys (n : ℕ) :
    mkeys (c3State n) = (List.range n).map (fun i : ℕ => generateKey (0, 0) ((i : ℚ), 0)) := by
  rw [c3State, mkeys, List.map_map]
  rfl

/-- C3: evaluating the code at the failing input. Starting from a full
cache of 100 distinct entries written at times 0..99, the 101st insertion
(time 100) triggers the capacity sweep, which keeps exactly the 80 OLDEST
entries (timestamps 0..79): the 21 most recently written entries — the
just-inserted one included — are deleted, and in particular the key that
was just written cannot be looked up any more. The ≤ 100 capacity bound
itself holds (the cache ends at 80 entries). -/
theorem c3_lru_eviction_bug :
    cacheSet (c3State 100) 100 (some (0, 0))
        (Location.mk "L100" (100, 0) 0 0 0 0 default none) ⟨⟨1, 1⟩, ⟨1, 1⟩, ⟨1, 1⟩⟩
      = c3State 80
    ∧ (c3State 80).length = 80
    ∧ (c3State 80).map (fun e => e.2.timestamp) = (List.range 80).map (fun i : ℕ => (i : ℚ))
    ∧ mlookup (c3State 80) (generateKey (0, 0) (100, 0)) = none := by
  have hcast : ((100 : ℕ) : ℚ) = (100 : ℚ) := by norm_num
  have hkeymem : ∀ n : ℕ, n ≤ 100 →
      generateKey (0, 0) (100, 0) ∉ mkeys (c3State n) := by
    intro n hn hmem
    rw [c3State_keys] at hmem
    rcases List.mem_map.mp hmem with ⟨i, hi, hkey⟩
    have : i = 100 := by
      have hinj := @c3KeyInjective i 100
      simp only [hcast] at hinj
      exact hinj hkey
    rw [this] at hi
    exact absurd (List.mem_range.mp hi) (by omega)
  have hmset : mset (c3State 100) (generateKey (0, 0) (100, 0))
      { data := ⟨⟨1, 1⟩, ⟨1, 1⟩, ⟨1, 1⟩⟩, timestamp := (100 : ℚ), workCoords := (0, 0) }
      = c3State 101 := by
    rw [mset_append_of_not_mem _ _ _ (hkeymem 100 (le_refl 100))]
    have hsucc : c3State 101 = c3State 100 ++ [c3Entry 100] := by
      rw [c3State, c3State, List.range_succ, List.map_append]
      rfl
    rw [hsucc]
    have hpair : (generateKey (0, 0) ((100 : ℚ), 0),
        ({ data := ⟨⟨1, 1⟩, ⟨1, 1⟩, ⟨1, 1⟩⟩, timestamp := (100 : ℚ),
           workCoords := (0, 0) } : CacheEntry)) = c3Entry 100 := by
      simp [c3Entry, hcast]
    rw [← hpair]
  have hlen101 : (c3State 101).length = 101 := by simp [c3State]
  have hnoexp : ∀ e ∈ c3State 101, isExpired 100 e.2 = false := by
    intro e he
    rcases List.mem_map.mp he with ⟨i, _, hei⟩
    rw [← hei]
    simp only [c3Entry, isExpired, TTL]
    rw [decide_eq_false_iff_not]
    have : (0 : ℚ) ≤ (i : ℚ) := Nat.cast_nonneg i
    push_neg
    norm_num
    linarith
  have hsort : (c3State 101).Pairwise (fun a b => a.2.timestamp ≤ b.2.timestamp) := by
    rw [c3State]
    apply List.pairwise_map.mpr
    apply (List.pairwise_lt_range 101).imp
    intro a b hab
    simp only [c3Entry]
    exact_mod_cast le_of_lt hab
  have hnod : (mkeys (c3State 101)).Nodup := by
    rw [c3State_keys]
    exact (List.nodup_range 101).map c3KeyInjective
  have htake : (c3State 101).take 80 = c3State 80 := by
    rw [c3State, c3State, ← List.map_take, List.take_range]
    norm_num
  have hmain : cacheSet (c3State 100) 100 (some (0, 0))
      (Location.mk "L100" (100, 0) 0 0 0 0 default none) ⟨⟨1, 1⟩, ⟨1, 1⟩, ⟨1, 1⟩⟩
      = c3State 80 := by
    show (let key := generateKey (0, 0) (100, 0);
      let st1 := mset (c3State 100) key
        { data := ⟨⟨1, 1⟩, ⟨1, 1⟩, ⟨1, 1⟩⟩, timestamp := 100, workCoords := (0, 0) };
      if st1.length > MAX_ENTRIES then performCleanup 100 st1 else st1) = c3State 80
    simp only [hmset]
    rw [if_pos (by rw [hlen101]; norm_num [MAX_ENTRIES])]
    rw [performCleanup_no_expired 100 _ hnoexp]
    rw [if_pos (by rw [hlen101]; norm_num [MAX_ENTRIES])]
    rw [performLRUCleanup_sorted _ hsort hnod, htake]
  refine ⟨hmain, by simp [c3State], by simp [c3State, c3Entry, List.map_map], ?_⟩
  exact mlookup_eq_none_of_not_mem _ _ (hkeymem 80 (by omega))

/- ------------------------------------------------------------------ -/
/- C4                                                                  -/
/- ------------------------------------------------------------------ -/

/-- C4 counterexample: a `get` that observes an expired entry (written at
time 0, read at TTL+1 ms) returns `null` but does NOT leave the cache
contents unchanged — the entry is deleted by the read itself. -/
theorem c4_expired_read_mutates_counterexample :
    (cacheGet [(generateKey (0, 0) (5, 5),
          { data := ⟨⟨1, 1⟩, ⟨1, 1⟩, ⟨1, 1⟩⟩, timestamp := 0, workCoords := (0, 0) })]
        86400001 (some (0, 0)) (Location.mk "d" (5, 5) 0 0 0 0 default none)).1 = none
    ∧ (cacheGet [(generateKey (0, 0) (5, 5),
          { data := ⟨⟨1, 1⟩, ⟨1, 1⟩, ⟨1, 1⟩⟩, timestamp := 0, workCoords := (0, 0) })]
        86400001 (some (0, 0)) (Location.mk "d" (5, 5) 0 0 0 0 default none)).2
      ≠ [(generateKey (0, 0) (5, 5),
          { data := ⟨⟨1, 1⟩, ⟨1, 1⟩, ⟨1, 1⟩⟩, timestamp := 0, workCoords := (0, 0) })] := by
  constructor
  · with_unfolding_all decide
  · with_unfolding_all decide

/-- C4 amended: `get` returns null when the key is absent or when
`now − createdAt > TTL` (TTL = 24 h, strict comparison), and returns the
stored bundle with the state unchanged otherwise — but a read that
observes an expired entry deletes that entry from the cache on the spot
(`this.cache.delete(key)`), in addition to the cleanup/eviction passes. -/
theorem c4_get_soft_expiry_amended (st : CacheState) (now : ℚ) (w : ℚ × ℚ) (loc : Location) :
    (mlookup st (generateKey w loc.position) = none →
      cacheGet st now (some w) loc = (none, st))
    ∧ (∀ e, mlookup st (generateKey w loc.position) = some e →
        now - e.timestamp > TTL →
        cacheGet st now (some w) loc = (none, merase st (generateKey w loc.position)))
    ∧ (∀ e, mlookup st (generateKey w loc.position) = some e →
        ¬(now - e.timestamp > TTL) →
        cacheGet st now (some w) loc = (some e.data, st))
    ∧ cacheGet st now none loc = (none, st) := by
  refine ⟨?_, ?_, ?_, rfl⟩
  · intro h
    simp [cacheGet, h]
  · intro e he hexp
    simp [cacheGet, he, isExpired, hexp]
  · intro e he hfresh
    simp [cacheGet, he, isExpired, hfresh]

/-- Witness for C4 (amended) at a one-entry cache: the expired branch and
the fresh branch, each at concrete inputs. -/
theorem c4_get_soft_expiry_witness :
    cacheGet [(generateKey (0, 0) (5, 5),
          { data := ⟨⟨1, 1⟩, ⟨1, 1⟩, ⟨1, 1⟩⟩, timestamp := 0, workCoords := (0, 0) })]
        86400001 (some (0, 0)) (Location.mk "d" (5, 5) 0 0 0 0 default none)
      = (none, merase [(generateKey (0, 0) (5, 5),
          { data := ⟨⟨1, 1⟩, ⟨1, 1⟩, ⟨1, 1⟩⟩, timestamp := 0, workCoords := (0, 0) })]
          (generateKey (0, 0) (5, 5)))
    ∧ cacheGet [(generateKey (0, 0) (5, 5),
          { data := ⟨⟨1, 1⟩, ⟨1, 1⟩, ⟨1, 1⟩⟩, timestamp := 0, workCoords := (0, 0) })]
        1000 (some (0, 0)) (Location.mk "d" (5, 5) 0 0 0 0 default none)
      = (some (⟨⟨1, 1⟩, ⟨1, 1⟩, ⟨1, 1⟩⟩ : TravelTimes),
         [(generateKey (0, 0) (5, 5),
          { data := ⟨⟨1, 1⟩, ⟨1, 1⟩, ⟨1, 1⟩⟩, timestamp := 0, workCoords := (0, 0) })]) := by
  constructor
  · exact (c4_get_soft_expiry_amended _ _ _ _).2.1
      { data := ⟨⟨1, 1⟩, ⟨1, 1⟩, ⟨1, 1⟩⟩, timestamp := 0, workCoords := (0, 0) }
      (by with_unfolding_all rfl) (by norm_num [TTL])
  · exact (c4_get_soft_expiry_amended _ _ _ _).2.2.1
      { data := ⟨⟨1, 1⟩, ⟨1, 1⟩, ⟨1, 1⟩⟩, timestamp := 0, workCoords := (0, 0) }
      (by with_unfolding_all rfl) (by norm_num [TTL])

/- ------------------------------------------------------------------ -/
/- C5                                                                  -/
/- ------------------------------------------------------------------ -/

theorem haversine_antipodal :
    haversineDistanceMeters (0, 0) (0, 180) = 6371000 * Real.pi := by
  unfold haversineDistanceMeters toRadians
  have h180 : ((180 : ℝ) - 0) * (Real.pi / 180) / 2 = Real.pi / 2 := by
    field_simp
  have h0 : ((0 : ℝ) - 0) * (Real.pi / 180) / 2 = 0 := by ring
  have hc0 : ((0 : ℝ)) * (Real.pi / 180) = 0 := by ring
  simp only [h180, h0, hc0, Real.sin_zero, Real.cos_zero, Real.sin_pi_div_two]
  norm_num
  unfold atan2
  norm_num
  ring

/-- C5 counterexample: when the batched request itself fails (the walking
batch fetch throws), the batch path pushes all-zero results and performs
no Haversine fallback: for origin (0,0) and destination (0,180) the
resulting walking distance is 0, which differs from the Haversine
distance `6371000 π > 0` the claim requires. -/
theorem c5_batch_failure_no_fallback_counterexample :
    ¬ (((calculateBatchTravelTimes (some ((0 : ℝ), 0))
          [Location.mk "far" (0, 180) 0 0 0 0 default none]
          (fun _ _ => Except.error ())).headI.walking.distance
        = haversineDistanceMeters (0, 0) (0, 180))
      ∧ ((calculateBatchTravelTimes (some ((0 : ℝ), 0))
          [Location.mk "far" (0, 180) 0 0 0 0 default none]
          (fun _ _ => Except.error ())).headI.walking.duration
        = ((round (haversineDistanceMeters (0, 0) (0, 180) / avgSpeed .walking) : ℤ) : ℝ))) := by
  intro h
  have h0 : (calculateBatchTravelTimes (some ((0 : ℝ), 0))
      [Location.mk "far" (0, 180) 0 0 0 0 default none]
      (fun _ _ => Except.error ())).headI.walking.distance = 0 := by
    simp [calculateBatchTravelTimes, runBatches, processBatch, zeroResult]
  have h1 := h.1
  rw [h0, haversine_antipodal] at h1
  have hpi := Real.pi_pos
  nlinarith

/-- C5 amended: the Haversine fallback (Earth radius 6371000 m, duration
`round(distance / speed)` at 80/1000/300 m/min) applies on the
single-destination per-mode path when that one request fails, other modes
unaffected; a batched request that fails entirely instead yields all-zero
bundles for every destination of the batch, with no fallback. -/
theorem c5_fallback_amended :
    (∀ (origin destination : ℝ × ℝ) (mode : TravelMode) (e : Unit),
        calculateSingleMode origin destination mode (.error e)
          = some { distance := haversineDistanceMeters origin destination
                   duration := ((round (haversineDistanceMeters origin destination
                      / avgSpeed mode) : ℤ) : ℝ) })
    ∧ (∀ (w : ℝ × ℝ) (locations : List Location) (resp : ℕ → TravelMode → FetchOutcome),
        (∀ b m, resp b m = .error ()) →
        calculateBatchTravelTimes (some w) locations resp
          = locations.map (fun loc => zeroResult loc.id)) := by
  constructor
  · intro origin destination mode e
    rfl
  · intro w locations resp hfail
    suffices h : ∀ (n : ℕ) (l : List Location) (b : ℕ), l.length ≤ n →
        runBatches resp b l = l.map (fun loc => zeroResult loc.id) by
      simpa [calculateBatchTravelTimes] using h locations.length locations 0 le_rfl
    intro n
    induction n with
    | zero =>
        intro l b hl
        rw [List.length_eq_zero.mp (Nat.le_zero.mp hl)]
        simp [runBatches]
    | succ n ih =>
        intro l b hl
        cases l with
        | nil => simp [runBatches]
        | cons x xs =>
            rw [runBatches]
            have hpb : processBatch ((x :: xs).take 10) (resp b)
                = ((x :: xs).take 10).map (fun loc => zeroResult loc.id) := by
              unfold processBatch
              rw [hfail b .walking]
            have hdrop : ((x :: xs).drop 10).length ≤ n := by
              simp only [List.length_cons] at hl
              simp only [List.length_drop, List.length_cons]
              omega
            rw [hpb, ih ((x :: xs).drop 10) (b + 1) hdrop,
              ← List.map_append, List.take_append_drop]

/-- Witness for C5 (amended) at concrete inputs: a failing single-mode
request for walking, and an all-failing batched run over two locations. -/
theorem c5_fallback_amended_witness :
    calculateSingleMode ((0 : ℝ), 0) ((0 : ℝ), 180) .walking (.error ())
      = some { distance := haversineDistanceMeters (0, 0) (0, 180)
               duration := ((round (haversineDistanceMeters (0, 0) (0, 180)
                  / avgSpeed .walking) : ℤ) : ℝ) }
    ∧ calculateBatchTravelTimes (some ((0 : ℝ), 0))
        [Location.mk "a" (0, 180) 0 0 0 0 default none,
         Location.mk "b" (3, 4) 0 0 0 0 default none]
        (fun _ _ => Except.error ())
      = [zeroResult "a", zeroResult "b"] := by
  constructor
  · exact c5_fallback_amended.1 (0, 0) (0, 180) .walking ()
  · exact c5_fallback_amended.2 (0, 0) _ _ (fun _ _ => rfl)

/- ------------------------------------------------------------------ -/
/- C2                                                                  -/
/- ------------------------------------------------------------------ -/

theorem foldl_mset_lookup_not_mem (f : String → ℚ) (locs : List Location)
    (acc : List (String × ℚ)) (x : String) (h : ∀ l ∈ locs, l.id ≠ x) :
    mlookup (locs.foldl (fun acc l => mset acc l.id (f l.id)) acc) x = mlookup acc x := by
  induction locs generalizing acc with
  | nil => rfl
  | cons l ls ih =>
      rw [List.foldl_cons, ih _ (fun l' hl' => h l' (List.mem_cons_of_mem l hl')),
        mlookup_mset_ne _ _ _ _ (h l (List.mem_cons_self l ls))]

theorem foldl_mset_lookup_mem (f : String → ℚ) (locs : List Location)
    (acc : List (String × ℚ)) (x : String) (h : ∃ l ∈ locs, l.id = x) :
    mlookup (locs.foldl (fun acc l => mset acc l.id (f l.id)) acc) x = some (f x) := by
  induction locs generalizing acc with
  | nil => rcases h with ⟨l, hl, _⟩; exact absurd hl (List.not_mem_nil l)
  | cons l ls ih =>
      by_cases hmem : ∃ l' ∈ ls, l'.id = x
      · rw [List.foldl_cons]
        exact ih _ hmem
      · have hl : l.id = x := by
          rcases h with ⟨l', hl', hid⟩
          rcases List.mem_cons.mp hl' with rfl | hin
          · exact hid
          · exact absurd ⟨l', hin, hid⟩ hmem
        rw [List.foldl_cons,
          foldl_mset_lookup_not_mem f ls _ x (fun l' hl' hc => hmem ⟨l', hl', hc⟩), hl,
          mlookup_mset_self]

theorem foldl_add_map_sum {α : Type} (l : List α) (g : α → ℚ) (a : ℚ) :
    l.foldl (fun w e => w + g e) a = a + (l.map g).sum := by
  induction l generalizing a with
  | nil => simp
  | cons x xs ih =>
      rw [List.foldl_cons, ih, List.map_cons, List.sum_cons]
      ring

theorem weightedScoreFor_eq_sum (config : ScoreConfig)
    (pluginScores : List (String × List (String × ℚ))) (locationId : String) :
    weightedScoreFor config pluginScores locationId
      = (pluginScores.map (fun entry =>
          ((mlookup entry.2 locationId).getD 0) * getPluginWeight config entry.1)).sum := by
  unfold weightedScoreFor
  rw [foldl_add_map_sum]
  ring

/-- C2: in every calculation, each candidate's overall score is exactly
the sum over the executed plugins of that plugin's score for the
candidate (0 when the plugin recorded none) times the plugin's weight,
where the four well-known plugin ids map to the configured weights and
every other id gets the 0.25 default. -/
theorem c2_overall_weighted_sum (e : AnalyticsEngine) (locations : List Location)
    (loc : Location) (hmem : loc ∈ locations) :
    mlookup (runCalculation e locations).overallScores loc.id
      = some ((((runCalculation e locations).pluginScores).map
          (fun entry =>
            ((mlookup entry.2 loc.id).getD 0) * getPluginWeight e.config entry.1)).sum)
    ∧ getPluginWeight e.config "commute-score" = e.config.weights.commute
    ∧ getPluginWeight e.config "cost-score" = e.config.weights.cost
    ∧ getPluginWeight e.config "amenities-score" = e.config.weights.amenities
    ∧ getPluginWeight e.config "size-score" = e.config.weights.size
    ∧ (∀ pid, pid ∉ ["commute-score", "cost-score", "amenities-score", "size-score"] →
        getPluginWeight e.config pid = 1/4) := by
  refine ⟨?_, rfl, by simp [getPluginWeight], by simp [getPluginWeight],
    by simp [getPluginWeight], ?_⟩
  · show mlookup (calculateOverallScores e.config
        (executePlugins locations e.config (mvalues e.plugins)).pluginScores locations) loc.id
      = _
    rw [calculateOverallScores,
      foldl_mset_lookup_mem _ locations [] loc.id ⟨loc, hmem, rfl⟩,
      weightedScoreFor_eq_sum]
    rfl
  · intro pid hpid
    simp only [List.mem_cons, not_or] at hpid
    obtain ⟨h1, h2, h3, h4, _⟩ := hpid
    simp [getPluginWeight, h1, h2, h3, h4]

/-- Witness for C2: the default engine over a one-candidate set. -/
theorem c2_overall_weighted_sum_witness :
    Location.mk "w" (0, 0) 100000 500 1 1 default none
        ∈ [Location.mk "w" (0, 0) 100000 500 1 1 default none]
    ∧ mlookup (runCalculation defaultEngine
          [Location.mk "w" (0, 0) 100000 500 1 1 default none]).overallScores "w"
      = some ((((runCalculation defaultEngine
            [Location.mk "w" (0, 0) 100000 500 1 1 default none]).pluginScores).map
          (fun entry =>
            ((mlookup entry.2 "w").getD 0)
              * getPluginWeight defaultEngine.config entry.1)).sum) := by
  refine ⟨List.mem_singleton.mpr rfl, ?_⟩
  exact (c2_overall_weighted_sum defaultEngine _ _ (List.mem_singleton.mpr rfl)).1

/- ------------------------------------------------------------------ -/
/- C6                                                                  -/
/- ------------------------------------------------------------------ -/

theorem execStep_broken (locations : List Location) (config : ScoreConfig)
    (acc : ExecAcc) (bp : AnalyticsPlugin)
    (hthrow : ∀ ls c, bp.calculate ls c = none) :
    execStep locations config acc bp = acc := by
  unfold execStep
  rw [hthrow]

theorem executePlugins_insert_broken (locations : List Location) (config : ScoreConfig)
    (l1 l2 : List AnalyticsPlugin) (bp : AnalyticsPlugin)
    (hthrow : ∀ ls c, bp.calculate ls c = none) :
    executePlugins locations config (l1 ++ bp :: l2)
      = executePlugins locations config (l1 ++ l2) := by
  unfold executePlugins
  rw [List.foldl_append, List.foldl_append, List.foldl_cons,
    execStep_broken locations config _ bp hthrow]

theorem execfold_results_keys (locations : List Location) (config : ScoreConfig)
    (ps : List AnalyticsPlugin) (acc : ExecAcc) (x : String)
    (hx : x ∈ mkeys (ps.foldl (execStep locations config) acc).pluginResults) :
    x ∈ mkeys acc.pluginResults ∨ x ∈ ps.map AnalyticsPlugin.id := by
  induction ps generalizing acc with
  | nil => exact Or.inl hx
  | cons p ps ih =>
      rw [List.foldl_cons] at hx
      rcases ih (execStep locations config acc p) hx with h | h
      · rcases hc : p.calculate locations config with _ | r
        · rw [execStep, hc] at h
          exact Or.inl h
        · rw [execStep, hc] at h
          simp only at h
          rcases mem_mkeys_mset _ _ _ _ h with h' | h'
          · exact Or.inl h'
          · exact Or.inr (List.mem_cons.mpr (Or.inl h'))
      · exact Or.inr (List.mem_cons.mpr (Or.inr h))

/-- C6: a registered plugin whose `calculate` always throws is caught and
skipped — the full calculation result is identical to a run without it,
and its id is absent from the `pluginsExecuted` metadata. -/
theorem c6_plugin_isolation (config : ScoreConfig)
    (ps1 ps2 : List (String × AnalyticsPlugin)) (bp : AnalyticsPlugin)
    (locations : List Location)
    (hthrow : ∀ ls c, bp.calculate ls c = none)
    (hid : bp.id ∉ (mvalues (ps1 ++ ps2)).map AnalyticsPlugin.id) :
    runCalculation ⟨ps1 ++ (bp.id, bp) :: ps2, config, false⟩ locations
      = runCalculation ⟨ps1 ++ ps2, config, false⟩ locations
    ∧ bp.id ∉ (runCalculation ⟨ps1 ++ (bp.id, bp) :: ps2, config, false⟩
        locations).metadata.pluginsExecuted := by
  have hv : mvalues (ps1 ++ (bp.id, bp) :: ps2) = mvalues ps1 ++ bp :: mvalues ps2 := by
    simp [mvalues]
  have hv2 : mvalues (ps1 ++ ps2) = mvalues ps1 ++ mvalues ps2 := by simp [mvalues]
  have hexec : executePlugins locations config (mvalues (ps1 ++ (bp.id, bp) :: ps2))
      = executePlugins locations config (mvalues (ps1 ++ ps2)) := by
    rw [hv, hv2]
    exact executePlugins_insert_broken locations config _ _ bp hthrow
  constructor
  · unfold runCalculation
    rw [hexec]
  · intro hmem
    have : bp.id ∈ mkeys (executePlugins locations config
        (mvalues (ps1 ++ ps2))).pluginResults := by
      have h1 : (runCalculation ⟨ps1 ++ (bp.id, bp) :: ps2, config, false⟩
          locations).metadata.pluginsExecuted
          = mkeys (executePlugins locations config
              (mvalues (ps1 ++ (bp.id, bp) :: ps2))).pluginResults := rfl
      rw [h1, hexec] at hmem
      exact hmem
    rcases execfold_results_keys locations config _ _ _ this with h | h
    · exact absurd h (List.not_mem_nil bp.id)
    · rw [hv2] at h
      exact hid (by rw [hv2]; exact h)

/-- Witness for C6: a plugin that always throws, registered alongside the
commute plugin, over a one-candidate set. -/
theorem c6_plugin_isolation_witness :
    (∀ (ls : List Location) (c : ScoreConfig),
      (AnalyticsPlugin.mk "broken" "Broken" "always throws"
        (fun _ _ => none)).calculate ls c = none)
    ∧ runCalculation ⟨[("commute-score", commuteScorePlugin),
          ("broken", AnalyticsPlugin.mk "broken" "Broken" "always throws" (fun _ _ => none))],
          DEFAULT_SCORE_CONFIG, false⟩
        [Location.mk "w" (0, 0) 100000 500 1 1 default none]
      = runCalculation ⟨[("commute-score", commuteScorePlugin)], DEFAULT_SCORE_CONFIG, false⟩
        [Location.mk "w" (0, 0) 100000 500 1 1 default none]
    ∧ "broken" ∉ (runCalculation ⟨[("commute-score", commuteScorePlugin),
          ("broken", AnalyticsPlugin.mk "broken" "Broken" "always throws" (fun _ _ => none))],
          DEFAULT_SCORE_CONFIG, false⟩
        [Location.mk "w" (0, 0) 100000 500 1 1 default none]).metadata.pluginsExecuted := by
  have h := c6_plugin_isolation DEFAULT_SCORE_CONFIG
    [("commute-score", commuteScorePlugin)] []
    (AnalyticsPlugin.mk "broken" "Broken" "always throws" (fun _ _ => none))
    [Location.mk "w" (0, 0) 100000 500 1 1 default none]
    (fun _ _ => rfl) (by simp [mvalues, commuteScorePlugin])
  exact ⟨fun _ _ => rfl, h.1, h.2⟩

/- ------------------------------------------------------------------ -/
/- C7                                                                  -/
/- ------------------------------------------------------------------ -/

/-- C7: `calculateAnalytics` throws the already-in-progress error exactly
when the engine is mid-calculation; every completed calculation (plugin
failures included, since those are absorbed inside the run) hands back an
idle engine, on which the next call is accepted. -/
theorem c7_single_flight_guard (e : AnalyticsEngine)
    (locations locations' : List Location) :
    ((∃ msg, calculateAnalytics e locations = .error msg) ↔ e.isCalculating = true)
    ∧ (∀ r e', calculateAnalytics e locations = .ok (r, e') →
        e'.isCalculating = false
        ∧ calculateAnalytics e' locations'
            = .ok (runCalculation e' locations', { e' with isCalculating := false })) := by
  rcases he : e.isCalculating with _ | _
  · constructor
    · simp [calculateAnalytics, he]
    · intro r e' h
      simp only [calculateAnalytics, he, Bool.false_eq_true, if_false, Except.ok.injEq,
        Prod.mk.injEq] at h
      have he' : e'.isCalculating = false := by rw [← h.2]
      refine ⟨he', ?_⟩
      simp [calculateAnalytics, he']
  · constructor
    · simp [calculateAnalytics, he]
    · intro r e' h
      simp [calculateAnalytics, he] at h
  
/-- Witness for C7: a busy engine rejects, an idle engine completes and
accepts a follow-up call. -/
theorem c7_single_flight_guard_witness :
    (∃ msg, calculateAnalytics ⟨[], DEFAULT_SCORE_CONFIG, true⟩ [] = .error msg)
    ∧ ((⟨[], DEFAULT_SCORE_CONFIG, false⟩ : AnalyticsEngine).isCalculating = false
      ∧ calculateAnalytics (⟨[], DEFAULT_SCORE_CONFIG, false⟩ : AnalyticsEngine) []
          = .ok (runCalculation (⟨[], DEFAULT_SCORE_CONFIG, false⟩ : AnalyticsEngine) [],
              { (⟨[], DEFAULT_SCORE_CONFIG, false⟩ : AnalyticsEngine) with
                  isCalculating := false })) := by
  constructor
  · exact (c7_single_flight_guard ⟨[], DEFAULT_SCORE_CONFIG, true⟩ [] []).1.mpr rfl
  · exact (c7_single_flight_guard ⟨[], DEFAULT_SCORE_CONFIG, false⟩ [] []).2
      (runCalculation ⟨[], DEFAULT_SCORE_CONFIG, false⟩ [])
      ⟨[], DEFAULT_SCORE_CONFIG, false⟩ rfl

/- ------------------------------------------------------------------ -/
/- C10                                                                 -/
/- ------------------------------------------------------------------ -/

theorem mset_replace {κ α : Type} [DecidableEq κ] (m1 m2 : List (κ × α)) (k : κ) (v v' : α)
    (h : k ∉ mkeys m1) : mset (m1 ++ (k, v') :: m2) k v = m1 ++ (k, v) :: m2 := by
  induction m1 with
  | nil => simp [mset]
  | cons e t ih =>
      rw [mkeys_cons] at h
      have he : e.1 ≠ k := fun hc => h (List.mem_cons.mpr (Or.inl hc.symm))
      have ht : k ∉ mkeys t := fun hc => h (List.mem_cons.mpr (Or.inr hc))
      simp only [List.cons_append, mset, if_neg he]
      rw [List.append_eq, ih ht]

theorem mlookup_append_first {κ α : Type} [DecidableEq κ] (m1 m2 : List (κ × α)) (k : κ)
    (v : α) (h : k ∉ mkeys m1) : mlookup (m1 ++ (k, v) :: m2) k = some v := by
  induction m1 with
  | nil => simp [mlookup]
  | cons e t ih =>
      rw [mkeys_cons] at h
      have he : e.1 ≠ k := fun hc => h (List.mem_cons.mpr (Or.inl hc.symm))
      have ht : k ∉ mkeys t := fun hc => h (List.mem_cons.mpr (Or.inr hc))
      simp only [List.cons_append, mlookup, if_neg he]
      rw [List.append_eq, ih ht]

theorem execfold_scores_not_mem (locations : List Location) (config : ScoreConfig)
    (ps : List AnalyticsPlugin) (acc : ExecAcc) (i : String)
    (h : ∀ p ∈ ps, p.id ≠ i) :
    mlookup (ps.foldl (execStep locations config) acc).pluginScores i
      = mlookup acc.pluginScores i := by
  induction ps generalizing acc with
  | nil => rfl
  | cons p ps ih =>
      rw [List.foldl_cons, ih _ (fun p' hp' => h p' (List.mem_cons_of_mem p hp'))]
      rcases hc : p.calculate locations config with _ | r
      · rw [execStep, hc]
      · rw [execStep, hc]
        exact mlookup_mset_ne _ _ _ _ (h p (List.mem_cons_self p ps))

/-- C10: `registerPlugin` with an id that is already registered replaces
the existing plugin in place — the lookup now yields the new plugin, the
key set (and so the registry size) is unchanged, other ids are untouched,
and the next calculation records the new plugin's scores under that id. -/
theorem c10_register_replaces (config : ScoreConfig)
    (m1 m2 : List (String × AnalyticsPlugin)) (p q : AnalyticsPlugin)
    (locations : List Location) (res : AnalyticsResult)
    (h1 : p.id ∉ mkeys m1)
    (h2 : ∀ q' ∈ mvalues m2, q'.id ≠ p.id)
    (hcalc : p.calculate locations config = some res) :
    (registerPlugin ⟨m1 ++ (p.id, q) :: m2, config, false⟩ p).plugins
        = m1 ++ (p.id, p) :: m2
    ∧ mlookup (registerPlugin ⟨m1 ++ (p.id, q) :: m2, config, false⟩ p).plugins p.id = some p
    ∧ mkeys (registerPlugin ⟨m1 ++ (p.id, q) :: m2, config, false⟩ p).plugins
        = mkeys (m1 ++ (p.id, q) :: m2)
    ∧ (∀ k, k ≠ p.id →
        mlookup (registerPlugin ⟨m1 ++ (p.id, q) :: m2, config, false⟩ p).plugins k
          = mlookup (m1 ++ (p.id, q) :: m2) k)
    ∧ mlookup (runCalculation (registerPlugin ⟨m1 ++ (p.id, q) :: m2, config, false⟩ p)
          locations).pluginScores p.id
        = some res.scores := by
  have hreg : (registerPlugin ⟨m1 ++ (p.id, q) :: m2, config, false⟩ p).plugins
      = m1 ++ (p.id, p) :: m2 := by
    show mset (m1 ++ (p.id, q) :: m2) p.id p = m1 ++ (p.id, p) :: m2
    exact mset_replace m1 m2 p.id p q h1
  refine ⟨hreg, ?_, ?_, ?_, ?_⟩
  · rw [hreg]
    exact mlookup_append_first m1 m2 p.id p h1
  · rw [hreg]
    simp [mkeys]
  · intro k hk
    show mlookup (mset (m1 ++ (p.id, q) :: m2) p.id p) k = _
    exact mlookup_mset_ne _ _ _ _ (fun hc => hk hc.symm)
  · show mlookup (executePlugins locations config
        (mvalues (registerPlugin ⟨m1 ++ (p.id, q) :: m2, config, false⟩ p).plugins)).pluginScores
        p.id = some res.scores
    rw [hreg]
    have hv : mvalues (m1 ++ (p.id, p) :: m2) = mvalues m1 ++ p :: mvalues m2 := by
      simp [mvalues]
    rw [hv]
    unfold executePlugins
    rw [List.foldl_append, List.foldl_cons]
    rw [execfold_scores_not_mem locations config (mvalues m2) _ p.id h2]
    rw [execStep, hcalc]
    exact mlookup_mset_self _ _ _

/-- Witness for C10: re-registering id `commute-score` with a replacement
plugin on a registry that already holds the core commute plugin. -/
theorem c10_register_replaces_witness :
    (registerPlugin ⟨[("commute-score", commuteScorePlugin)], DEFAULT_SCORE_CONFIG, false⟩
        (AnalyticsPlugin.mk "commute-score" "Replacement" "replaces the core plugin"
          (fun _ _ => some (createResult [] [] [] "commute-score")))).plugins
      = [("commute-score",
          AnalyticsPlugin.mk "commute-score" "Replacement" "replaces the core plugin"
            (fun _ _ => some (createResult [] [] [] "commute-score")))]
    ∧ mlookup (runCalculation (registerPlugin
          ⟨[("commute-score", commuteScorePlugin)], DEFAULT_SCORE_CONFIG, false⟩
          (AnalyticsPlugin.mk "commute-score" "Replacement" "replaces the core plugin"
            (fun _ _ => some (createResult [] [] [] "commute-score")))) []).pluginScores
        "commute-score"
      = some (createResult [] [] [] "commute-score").scores := by
  have h := c10_register_replaces DEFAULT_SCORE_CONFIG [] [] 
    (AnalyticsPlugin.mk "commute-score" "Replacement" "replaces the core plugin"
      (fun _ _ => some (createResult [] [] [] "commute-score")))
    commuteScorePlugin [] (createResult [] [] [] "commute-score")
    (List.not_mem_nil _) (fun q' hq' => absurd hq' (List.not_mem_nil q')) rfl
  exact ⟨h.1, h.2.2.2.2⟩

/-- Witness for C9 (amended) at the two-candidate set with rents
200000 and 400000 cents. -/
theorem c9_cost_base_amended_witness :
    ((costCalculate (Location.mk "expensive" (0, 0) 400000 700 1 1 default none)
        [Location.mk "cheap" (0, 0) 200000 900 2 1 default none,
         Location.mk "expensive" (0, 0) 400000 700 1 1 default none]).factors.map
        Factor.contribution).head?
      = some (costBaseScore (Location.mk "expensive" (0, 0) 400000 700 1 1 default none)
          [Location.mk "cheap" (0, 0) 200000 900 2 1 default none,
           Location.mk "expensive" (0, 0) 400000 700 1 1 default none])
    ∧ (costMaxRent [Location.mk "cheap" (0, 0) 200000 900 2 1 default none,
           Location.mk "expensive" (0, 0) 400000 700 1 1 default none]
        - costMinRent [Location.mk "cheap" (0, 0) 200000 900 2 1 default none,
           Location.mk "expensive" (0, 0) 400000 700 1 1 default none] > 0 →
        costBaseScore (Location.mk "expensive" (0, 0) 400000 700 1 1 default none)
          [Location.mk "cheap" (0, 0) 200000 900 2 1 default none,
           Location.mk "expensive" (0, 0) 400000 700 1 1 default none]
          = 100 * (costMaxRent [Location.mk "cheap" (0, 0) 200000 900 2 1 default none,
                Location.mk "expensive" (0, 0) 400000 700 1 1 default none]
              - (Location.mk "expensive" (0, 0) 400000 700 1 1 default none).rent)
            / (costMaxRent [Location.mk "cheap" (0, 0) 200000 900 2 1 default none,
                Location.mk "expensive" (0, 0) 400000 700 1 1 default none]
              - costMinRent [Location.mk "cheap" (0, 0) 200000 900 2 1 default none,
                Location.mk "expensive" (0, 0) 400000 700 1 1 default none]))
    ∧ ((∀ r ∈ costRents [Location.mk "cheap" (0, 0) 200000 900 2 1 default none,
           Location.mk "expensive" (0, 0) 400000 700 1 1 default none],
          r = costMinRent [Location.mk "cheap" (0, 0) 200000 900 2 1 default none,
           Location.mk "expensive" (0, 0) 400000 700 1 1 default none]) →
        costBaseScore (Location.mk "expensive" (0, 0) 400000 700 1 1 default none)
          [Location.mk "cheap" (0, 0) 200000 900 2 1 default none,
           Location.mk "expensive" (0, 0) 400000 700 1 1 default none] = 100) := by
  exact c9_cost_base_amended _ _ (by norm_num) (by simp [costRents])
